import Mathlib

/-!
Shallow embedding of the dialogue-state and tool-orchestration engine of
`apps/voice-agent/src/agent.py` (class `VoiceAgent`).

Modelling conventions (documented once here):
* Python strings are Lean `String`s; regex matching is implemented character
  by character on `List Char`, restricted to ASCII semantics (the source is
  only exercised with ASCII utterances; Python's Unicode-aware `\w`, `\s`,
  `IGNORECASE` extensions beyond ASCII are out of scope).
* Python truthiness is modelled explicitly: `None` and `""` are falsy for
  string-valued fields, `None` and `[]` for lists; dictionaries of a fixed
  record shape (NLU results, date ranges, `near` objects, non-empty `user`
  dicts) are modelled as records and are truthy whenever present (`some`).
* The external collaborators (the backend HTTP client `MCPClient`, the
  `datetime` library helpers used for date arithmetic and formatting, the
  Ollama chat call, and the NLU endpoint) are inputs: records of functions
  returning `Except String _` where `Except.error` models a raised Python
  exception.  The language model's raw output together with the outcome of
  the source's brace-extraction + `json.loads` parsing rule is the `LLM`
  input.
* Numeric payloads that the engine never computes with (coordinates,
  radii) are modelled as `Int`/`Nat`; the one-decimal float rendering of a
  doctor's `distance` is abstracted as an optional pre-rendered string.
* Every backend interaction is recorded in an explicit trace
  (`List BCall`) so that theorems can talk about which tools were invoked.
-/

/-- Python truthiness of an optional string: `None` and `""` are falsy. -/
def strTruthy : Option String → Bool
  | some s => !s.isEmpty
  | none => false

/-- Python `a or b` for optional strings (first truthy wins, else `b`). -/
def pyOrS (a b : Option String) : Option String :=
  if strTruthy a then a else b

/-- Python truthiness of an optional list: `None` and `[]` are falsy. -/
def listTruthy {α : Type} : Option (List α) → Bool
  | some l => !l.isEmpty
  | none => false

/-- Python `a or b` for optional lists. -/
def pyOrL {α : Type} (a b : Option (List α)) : Option (List α) :=
  if listTruthy a then a else b

/-- Python truthiness of an optional integer: `None` and `0` are falsy. -/
def intTruthy : Option Int → Bool
  | some i => i != 0
  | none => false

/-- Python `a or b` for optional integers. -/
def pyOrI (a b : Option Int) : Option Int :=
  if intTruthy a then a else b

/-- ASCII letter (the `[A-Za-z]` class; with `re.IGNORECASE` both `[A-Z]`
and `[a-z]` match any ASCII letter). -/
def isAlphaCh (c : Char) : Bool :=
  ('A' ≤ c && c ≤ 'Z') || ('a' ≤ c && c ≤ 'z')

/-- ASCII digit. -/
def isDigitCh (c : Char) : Bool :=
  '0' ≤ c && c ≤ '9'

/-- ASCII fragment of Python's regex `\s` class: space, tab, newline,
carriage return, form feed, vertical tab. -/
def isSpaceCh (c : Char) : Bool :=
  c = ' ' || c = '\t' || c = '\n' || c = '\x0d' || c = '\x0c' || c = '\x0b'

/-- ASCII fragment of Python's regex `\w` class: `[A-Za-z0-9_]`. -/
def isWordCh (c : Char) : Bool :=
  isAlphaCh c || isDigitCh c || c = '_'

/-- Case-insensitive ASCII character comparison (models `re.IGNORECASE`). -/
def lowEq (a b : Char) : Bool :=
  a.toLower = b.toLower

/-- ASCII lowercase of a character list (models `str.lower()`). -/
def toLowerList (cs : List Char) : List Char :=
  cs.map Char.toLower

/-- Case-insensitive literal prefix match; on success returns the rest of
the input (models a literal run inside an `re.IGNORECASE` pattern). -/
def litCI : List Char → List Char → Option (List Char)
  | [], cs => some cs
  | _ :: _, [] => none
  | p :: ps, c :: cs => if lowEq p c then litCI ps cs else none

/-- Whether a pattern occurs as a case-insensitive literal prefix. -/
def litCIb (p cs : List Char) : Bool :=
  (litCI p cs).isSome

/-- Substring test (`needle in hay` on Python strings). -/
def containsSub (needle : List Char) : List Char → Bool
  | [] => needle.isEmpty
  | c :: cs => needle.isPrefixOf (c :: cs) || containsSub needle cs

/-- Python `str.strip()`: drop leading and trailing whitespace. -/
def stripChars (cs : List Char) : List Char :=
  ((cs.dropWhile isSpaceCh).reverse.dropWhile isSpaceCh).reverse

/-- Collapse every whitespace run to a single space
(models `re.sub(r'\s+', ' ', text)`). -/
def collapseWs : List Char → List Char
  | [] => []
  | [c] => if isSpaceCh c then [' '] else [c]
  | c :: d :: cs =>
    if isSpaceCh c && isSpaceCh d then collapseWs (d :: cs)
    else (if isSpaceCh c then ' ' else c) :: collapseWs (d :: cs)

/-- A conversation turn (`{"role": ..., "content": ...}`). -/
structure Turn where
  role : String
  content : String
  deriving DecidableEq

/-- A date range / preferred-time value (`{"start": ..., "end": ...}`);
the `end` key is named `stop` because `end` is a Lean keyword. -/
structure DateRange where
  start : String
  stop : String
  deriving DecidableEq

/-- An availability slot; absent `start`/`end` keys are modelled as `""`
(the source reads them with `slot.get("start", "")`). -/
structure Slot where
  start : String
  stop : String
  deriving DecidableEq

/-- A doctor record from the backend.  The numeric `distance` used only in
summary rendering is abstracted as an optional pre-rendered string. -/
structure Doctor where
  id : Option String
  name : String
  specialty : Option String
  address : Option String
  phone : Option String
  distance : Option String
  deriving DecidableEq

/-- The NLU collaborator's response: intent plus the two entities the
agent reads (`entities.specialty`, `entities.dateRange`). -/
structure Nlu where
  intent : String
  specialty : Option String
  dateRange : Option DateRange
  deriving DecidableEq

/-- The result of `_extract_user_info`. -/
structure UserInfo where
  name : Option String
  email : Option String
  symptoms : Option String
  reason : Option String
  deriving DecidableEq

/-- The `self.context` session-state dictionary. -/
structure Context where
  specialty : Option String
  user_name : Option String
  user_email : Option String
  preferred_time : Option DateRange
  last_search_results : Option (List Doctor)
  selected_doctor_id : Option String
  symptoms : Option String
  reason : Option String
  available_slots : Option (List Slot)
  deriving DecidableEq

/-- The all-`None` initial session state. -/
def emptyContext : Context :=
  ⟨none, none, none, none, none, none, none, none, none⟩

/-- The mutable state of a `VoiceAgent` instance: the connectivity-probe
flag, the session context and the conversation history. -/
structure Agent where
  api_connection_tested : Bool
  context : Context
  conversation_history : List Turn
  deriving DecidableEq

/-- A location / `near` dictionary; the source reads both `lat`/`lng` and
`latitude`/`longitude` keys.  Coordinates are modelled as integers. -/
structure Near where
  lat : Option Int
  lng : Option Int
  latitude : Option Int
  longitude : Option Int
  deriving DecidableEq

/-- The `user` object of a schedule_appointment argument. -/
structure UserObj where
  name : Option String
  email : Option String
  deriving DecidableEq

/-- The argument dictionary of a parsed tool call: one optional field per
key the source ever reads. -/
structure Args where
  specialty : Option String
  near : Option Near
  radiusKm : Option Nat
  doctorId : Option String
  startUtc : Option String
  endUtc : Option String
  slotMinutes : Option Nat
  user : Option UserObj
  durationMinutes : Option Nat
  reason : Option String
  notes : Option String
  symptoms : Option (List String)
  query : Option String
  q : Option String
  deriving DecidableEq

/-- An argument dictionary with every key absent. -/
def noArgs : Args :=
  ⟨none, none, none, none, none, none, none, none, none, none, none, none, none, none⟩

/-- A parsed tool call `{"name": ..., "arguments": {...}}`; the name may be
absent (`tool_call.get("name")`). -/
structure ToolCall where
  name : Option String
  args : Args
  deriving DecidableEq

/-- The value found under the `"tool"` key of the decoded model output:
absent, JSON `null` (which makes `tool_call.get` raise `AttributeError`),
or an actual call object. -/
inductive ToolField where
  | absent
  | null
  | call (tc : ToolCall)
  deriving DecidableEq

/-- Outcome of the source's parsing rule applied to the raw model output:
`noJson` when the text does not contain both `\x7b` and `\x7d` (so no decode
is attempted), `fail` when `json.loads` raises `JSONDecodeError` (or a
`KeyError` occurs), `ok` when a dictionary was decoded, carrying its
optional `"response"` value and its `"tool"` field. -/
inductive Parse where
  | noJson
  | fail
  | ok (response : Option String) (tool : ToolField)
  deriving DecidableEq

/-- The language-model collaborator's behaviour for this turn: the chat
call raises, or returns raw text whose parse outcome is `p`. -/
inductive LLM where
  | raise (e : String)
  | reply (raw : String) (p : Parse)
  deriving DecidableEq

/-- Raw backend payload stored in a successful tool result's `result`. -/
inductive Payload where
  | search (doctors : List Doctor)
  | avail (slots : List Slot)
  | sched (appointmentId : Option String) (calendarLink : Option String)
  | geo (display_name : Option String)
  deriving DecidableEq

/-- A tool result: `{tool, result, summary}` on success or `{error}`. -/
inductive ToolResult where
  | ok (tool : String) (result : Payload) (summary : String)
  | err (msg : String)
  deriving DecidableEq

/-- The tool name of a successful tool result. -/
def ToolResult.toolName : ToolResult → Option String
  | .ok t _ _ => some t
  | .err _ => none

/-- Whether a tool result is an error dictionary. -/
def ToolResult.isErr : ToolResult → Bool
  | .ok _ _ _ => false
  | .err _ => true

/-- The full request of a `schedule_appointment` backend call. -/
structure SchedReq where
  doctorId : String
  startUtc : String
  user : UserObj
  endUtc : Option String
  durationMinutes : Nat
  reason : Option String
  notes : Option String
  symptoms : Option (List String)
  deriving DecidableEq

/-- One recorded interaction with the backend (the observation trace). -/
inductive BCall where
  | probe
  | search (specialty : String) (lat lng : Option Int) (radiusKm : Nat)
  | avail (doctorId startUtc endUtc : String) (slotMinutes : Nat)
  | sched (req : SchedReq)
  | geo (query : String)
  deriving DecidableEq

/-- Whether a trace entry is a `schedule_appointment` backend call. -/
def BCall.isSched : BCall → Bool
  | .sched _ => true
  | _ => false

/-- The external collaborators: the backend client (`MCPClient`) plus the
two `datetime` helpers the executor uses.  `Except.error` models a raised
exception. -/
structure Backend where
  test_connection : Except String Bool
  search_doctors : String → Option Int → Option Int → Nat → Except String (List Doctor)
  check_availability : String → String → String → Nat → Except String (List Slot)
  schedule_appointment : SchedReq → Except String Payload
  geocode : String → Except String (Option String)
  addOneDay : String → Except String String
  fmtSlotRange : String → String → Except String (String × String)

/-- Result of `_execute_tool`: the returned dictionary (or a propagated
exception from the connection probe), the updated agent state, and the
backend-call trace. -/
structure ExecOut where
  res : Except String ToolResult
  st : Agent
  calls : List BCall

/-- The dictionary returned by `process_message`. -/
structure PMOut where
  response : String
  tool_result : Option ToolResult
  error : Option String
  deriving DecidableEq

/-- The apostrophe character (written via its code point). -/
def apostropheChar : Char := Char.ofNat 39

/-- Match `[A-Z][a-z]+` under `IGNORECASE`: one ASCII letter followed
greedily by one or more ASCII letters.  Returns the word and the rest. -/
def wordTake : List Char → Option (List Char × List Char)
  | [] => none
  | c :: cs =>
    if isAlphaCh c then
      let run := cs.takeWhile isAlphaCh
      if run.isEmpty then none
      else some (c :: run, cs.dropWhile isAlphaCh)
    else none

/-- Match `\s+` greedily; returns the run and the rest. -/
def wsTake : List Char → Option (List Char × List Char)
  | [] => none
  | c :: cs =>
    if isSpaceCh c then some (c :: cs.takeWhile isSpaceCh, cs.dropWhile isSpaceCh)
    else none

/-- The `(?:\s+[A-Z][a-z]+)*` part of the name group, matched greedily.
The fuel is the input length, which bounds the iteration count. -/
def groupRest : Nat → List Char → List Char
  | 0, _ => []
  | fuel + 1, cs =>
    match wsTake cs with
    | some (s, r1) =>
      match wordTake r1 with
      | some (w, r2) => s ++ w ++ groupRest fuel r2
      | none => []
    | none => []

/-- The captured name group `([A-Z][a-z]+(?:\s+[A-Z][a-z]+)*)`. -/
def patGroup (cs : List Char) : Option (List Char) :=
  match wordTake cs with
  | some (w, r) => some (w ++ groupRest r.length r)
  | none => none

/-- Helper `\s+` followed by the name group. -/
def wsGroup (cs : List Char) : Option (List Char) :=
  match wsTake cs with
  | some (_, r) => patGroup r
  | none => none

/-- Helper for the `i'?m\s+NAME` pattern after the optional apostrophe:
a literal `m`, whitespace, then the name group. -/
def mTail : List Char → Option (List Char)
  | c :: rest => if lowEq c 'm' then wsGroup rest else none
  | [] => none

/-- Attempt name pattern `k` (0–4, in the source's priority order) at the
current position; all patterns carry `re.IGNORECASE`. -/
def patAt : Nat → List Char → Option (List Char)
  | 0, cs => (litCI "my name is ".toList cs).bind patGroup
  | 1, cs =>
    match cs with
    | [] => none
    | c :: rest =>
      if lowEq c 'i' then
        match rest with
        | [] => none
        | c2 :: r2 => if c2 = apostropheChar then mTail r2 else mTail rest
      else none
  | 2, cs => (litCI "i am".toList cs).bind wsGroup
  | 3, cs => (litCI "name is".toList cs).bind wsGroup
  | 4, cs => (litCI "call me".toList cs).bind wsGroup
  | _ + 5, _ => none

/-- Leftmost search (`re.search`): try the pattern at every position, the
earliest successful position wins. -/
def searchAt (pat : List Char → Option (List Char)) : List Char → Option (List Char)
  | [] => pat []
  | c :: cs =>
    match pat (c :: cs) with
    | some n => some n
    | none => searchAt pat cs

/-- First name pattern that matches anywhere, in priority order (the
source's `for pattern in name_patterns: ... break`). -/
def extractNameRaw (cs : List Char) : Option (List Char) :=
  (List.range 5).findSome? (fun k => searchAt (patAt k) cs)

/-- The local-part class `[A-Za-z0-9._%+-]` of the email pattern. -/
def localCh (c : Char) : Bool :=
  isAlphaCh c || isDigitCh c || c = '.' || c = '_' || c = '%' || c = '+' || c = '-'

/-- The domain class `[A-Za-z0-9.-]`. -/
def domCh (c : Char) : Bool :=
  isAlphaCh c || isDigitCh c || c = '.' || c = '-'

/-- The TLD class `[A-Z|a-z]` — note it literally includes `|`. -/
def tldCh (c : Char) : Bool :=
  isAlphaCh c || c = '|'

/-- Greedy `{2,}` with a trailing `\b`: try TLD lengths from `j` downwards
(≥ 2), succeeding when a word boundary follows the taken prefix of `run`
(`after` holds the characters following the whole run). -/
def tldTry (run after : List Char) : Nat → Option (List Char)
  | 0 => none
  | j + 1 =>
    if j + 1 < 2 then none
    else
      match run[j]? with
      | some lc =>
        let nextC := if j + 1 < run.length then run[j+1]? else after.head?
        if isWordCh lc != (match nextC with | some nc => isWordCh nc | none => false) then
          some (run.take (j + 1))
        else tldTry run after j
      | none => tldTry run after j

/-- Match `\.[A-Z|a-z]{2,}\b` at the current position. -/
def tryTld : List Char → Option (List Char)
  | c :: rest =>
    if c = '.' then
      let run := rest.takeWhile tldCh
      let after := rest.dropWhile tldCh
      (tldTry run after run.length).map (fun t => '.' :: t)
    else none
  | [] => none

/-- Greedy-with-backtracking `[A-Za-z0-9.-]+` followed by the TLD part:
try domain lengths from `k` downwards (≥ 1). -/
def domTry (cs : List Char) : Nat → Option (List Char)
  | 0 => none
  | k + 1 =>
    match tryTld (cs.drop (k + 1)) with
    | some t => some (cs.take (k + 1) ++ t)
    | none => domTry cs k

/-- Match the email pattern (sans the leading `\b`) at this position. -/
def emailAt (cs : List Char) : Option (List Char) :=
  let lpart := cs.takeWhile localCh
  let rest := cs.dropWhile localCh
  if lpart.isEmpty then none
  else
    match rest with
    | '@' :: r2 =>
      let drun := r2.takeWhile domCh
      match domTry r2 drun.length with
      | some d => some (lpart ++ '@' :: d)
      | none => none
    | _ => none

/-- Leftmost search for the email pattern, enforcing the leading `\b`
(a word/non-word transition, with out-of-bounds counting as non-word). -/
def emailSearch : Option Char → List Char → Option (List Char)
  | _, [] => none
  | prev, c :: cs =>
    let bnd := (match prev with | some p => isWordCh p | none => false) != isWordCh c
    match (if bnd then emailAt (c :: cs) else none) with
    | some m => some m
    | none => emailSearch (some c) cs

/-- The `re.search` of the email pattern over a message. -/
def extractEmail (cs : List Char) : Option (List Char) :=
  emailSearch none cs

/-- Characters matched by regex `.` (anything but a newline). -/
def dotCh (c : Char) : Bool :=
  c ≠ '\n'

/-- The symptom-clause terminator `(?:\.|$|and|my)` tested at a position. -/
def termAt (cs : List Char) : Bool :=
  match cs with
  | [] => true
  | c :: _ => c = '.' || litCIb "and".toList cs || litCIb "my".toList cs

/-- Lazy `(.+?)` before the terminator: grow the captured text one
character at a time, stopping at the first position where the terminator
matches. -/
def lazyGroup : Nat → List Char → List Char → Option (List Char)
  | 0, _, _ => none
  | fuel + 1, acc, cs =>
    match cs with
    | [] => none
    | c :: rest =>
      if dotCh c then
        if termAt rest then some (c :: acc).reverse
        else lazyGroup fuel (c :: acc) rest
      else none

/-- The captured symptom group at a position. -/
def sympGroup (cs : List Char) : Option (List Char) :=
  lazyGroup cs.length [] cs

/-- Helper `\s+` then the lazy symptom group. -/
def wsLazy (cs : List Char) : Option (List Char) :=
  match wsTake cs with
  | some (_, r) => sympGroup r
  | none => none

/-- The `(?:are|is|:)` alternation of the third symptom pattern. -/
def altAIS (cs : List Char) : Option (List Char) :=
  match litCI "are".toList cs with
  | some r => some r
  | none =>
    match litCI "is".toList cs with
    | some r => some r
    | none =>
      match cs with
      | ':' :: r => some r
      | _ => none

/-- Tail of `symptoms?\s+(?:are|is|:)\s+(.+?)` after the literal
`symptom`: the optional `s`, whitespace, the alternation, whitespace and
the lazy group. -/
def sympTail3 (cs : List Char) : Option (List Char) :=
  let cs' := match cs with
    | c :: r => if lowEq c 's' then r else c :: r
    | [] => cs
  match wsTake cs' with
  | some (_, r) => (altAIS r).bind wsLazy
  | none => none

/-- The `(?:in|at)` alternation of the fourth symptom pattern. -/
def altInAt (cs : List Char) : Option (List Char) :=
  match litCI "in".toList cs with
  | some r => some r
  | none => litCI "at".toList cs

/-- Tail of `pain\s+(?:in|at)\s+(.+?)` after the literal `pain`. -/
def painTail (cs : List Char) : Option (List Char) :=
  match wsTake cs with
  | some (_, r) => (altInAt r).bind wsLazy
  | none => none

/-- Attempt symptom pattern `k` (0–3, in the source's order) at the
current position. -/
def sympPatAt : Nat → List Char → Option (List Char)
  | 0, cs => (litCI "i feel".toList cs).bind wsLazy
  | 1, cs => (litCI "i have".toList cs).bind wsLazy
  | 2, cs => (litCI "symptom".toList cs).bind sympTail3
  | 3, cs => (litCI "pain".toList cs).bind painTail
  | _ + 4, _ => none

/-- First symptom pattern that matches anywhere, in order. -/
def extractSymptoms (cs : List Char) : Option (List Char) :=
  (List.range 4).findSome? (fun k => searchAt (sympPatAt k) cs)

/-- The source's `_extract_user_info`: name, email, symptoms and the
synthesised reason. -/
def extract_user_info (message : String) : UserInfo :=
  let cs := message.toList
  let nm := (extractNameRaw cs).map (fun l => String.mk (stripChars l))
  let em := (extractEmail cs).map String.mk
  match (extractSymptoms cs).map (fun l => String.mk (collapseWs (stripChars l))) with
  | some sy => ⟨nm, em, some sy, some ("Patient reports: " ++ sy)⟩
  | none => ⟨nm, em, none, none⟩

/-- The number-word table of `_parse_slot_selection`, in the source's
insertion order (Python dictionaries iterate in insertion order). -/
def number_words : List (List Char × Nat) :=
  [("zero".toList, 0), ("one".toList, 1), ("two".toList, 2), ("three".toList, 3),
   ("four".toList, 4), ("five".toList, 5), ("six".toList, 6), ("seven".toList, 7),
   ("eight".toList, 8), ("nine".toList, 9), ("ten".toList, 10),
   ("first".toList, 1), ("second".toList, 2), ("third".toList, 3),
   ("fourth".toList, 4), ("fifth".toList, 5), ("sixth".toList, 6),
   ("seventh".toList, 7), ("eighth".toList, 8), ("ninth".toList, 9),
   ("tenth".toList, 10)]

/-- Digits of a run folded into a number (`int(...)`). -/
def digitsToNat (cs : List Char) : Nat :=
  cs.foldl (fun n c => n * 10 + (c.toNat - '0'.toNat)) 0

/-- Leftmost `\b(\d+)\b` search: a digit run preceded and followed by a
word boundary. -/
def digitSearch : Option Char → List Char → Option Nat
  | _, [] => none
  | prev, c :: cs =>
    if isDigitCh c && !(match prev with | some p => isWordCh p | none => false) then
      let run := cs.takeWhile isDigitCh
      let after := cs.dropWhile isDigitCh
      match after.head? with
      | some nc => if isWordCh nc then digitSearch (some c) cs else some (digitsToNat (c :: run))
      | none => some (digitsToNat (c :: run))
    else digitSearch (some c) cs

/-- The source's `_parse_slot_selection`: number words first (substring
test, table order), then the first digit run. -/
def parse_slot_selection (message : String) : Option Nat :=
  let lm := stripChars (toLowerList message.toList)
  match number_words.findSome? (fun p => if containsSub p.1 lm then some p.2 else none) with
  | some n => some n
  | none => digitSearch none lm

/-- The `re.sub(r"^dr\.?\s*", "", name)` prefix strip of the doctor
matcher (applied to an already-lowercased name). -/
def stripDr (cs : List Char) : List Char :=
  match litCI "dr".toList cs with
  | some r =>
    let r2 := match r with
      | '.' :: r' => r'
      | _ => r
    r2.dropWhile isSpaceCh
  | none => cs

/-- Python `str.split()`: whitespace-separated non-empty chunks. -/
def splitWs (cs : List Char) : List (List Char) :=
  (cs.splitOnP isSpaceCh).filter (fun l => !l.isEmpty)

/-- Whether one doctor matches the lowercased message, per the source's
six substring conditions (doctors with an empty split name are skipped). -/
def doctorHit (lmsg : List Char) (d : Doctor) : Bool :=
  let dn := toLowerList d.name.toList
  let nwp := stripDr dn
  match splitWs nwp with
  | [] => false
  | first :: restParts =>
    let lastN := List.intercalate [' '] restParts
    containsSub lmsg dn || containsSub dn lmsg ||
    containsSub lmsg nwp || containsSub nwp lmsg ||
    (!first.isEmpty && containsSub first lmsg) ||
    (!lastN.isEmpty && containsSub lastN lmsg)

/-- The source's `_match_doctor_name`: the id of the first matching doctor
in list order (the source returns that doctor's possibly-absent id and
stops; an absent id is indistinguishable from no match for the caller's
truthiness test). -/
def match_doctor_name (message : String) (doctors : List Doctor) : Option String :=
  let lmsg := toLowerList message.toList
  (doctors.find? (doctorHit lmsg)).bind Doctor.id

/-- The "already provided info" phrases of the implicit-search trigger. -/
def gave_phrases : List String :=
  ["i gave", "i told", "already told", "i said", "you have"]

/-- Whether the lowercased message contains one of `gave_phrases`. -/
def hasGavePhrase (message : String) : Bool :=
  gave_phrases.any (fun p => containsSub p.toList (toLowerList message.toList))

/-- The confirming phrases of the full-information auto-book trigger. -/
def confirm_phrases : List String :=
  ["yes", "book", "schedule", "confirm", "proceed", "ok", "okay",
   "go ahead", "do it", "book the appointment"]

/-- Whether the lowercased message contains one of `confirm_phrases`. -/
def hasConfirmPhrase (message : String) : Bool :=
  confirm_phrases.any (fun p => containsSub p.toList (toLowerList message.toList))

/-- The start-time resolution of the schedule_appointment branch: explicit
argument if truthy, else the NLU date range's start when an NLU result
with a date range is present, else the session state's preferred time when
present, else the (falsy) argument value unchanged. -/
def resolveStart (argsStart : Option String) (nlu : Option Nlu) (c : Context) : Option String :=
  if strTruthy argsStart then argsStart
  else
    match nlu with
    | some r =>
      match r.dateRange with
      | some dr => some dr.start
      | none =>
        match c.preferred_time with
        | some pt => some pt.start
        | none => argsStart
    | none =>
      match c.preferred_time with
      | some pt => some pt.start
      | none => argsStart

/-- The user-name resolution of the schedule_appointment branch. -/
def resolveName (u0 : Option String) (ui : Option UserInfo) (c : Context) : Option String :=
  if strTruthy u0 then u0
  else
    match ui with
    | some i =>
      if strTruthy i.name then i.name
      else if strTruthy c.user_name then c.user_name else u0
    | none => if strTruthy c.user_name then c.user_name else u0

/-- The user-email resolution of the schedule_appointment branch. -/
def resolveEmail (u0 : Option String) (ui : Option UserInfo) (c : Context) : Option String :=
  if strTruthy u0 then u0
  else
    match ui with
    | some i =>
      if strTruthy i.email then i.email
      else if strTruthy c.user_email then c.user_email else u0
    | none => if strTruthy c.user_email then c.user_email else u0

/-- One numbered entry of the search summary. -/
def doctorLine (i : Nat) (d : Doctor) : String :=
  toString i ++ ". **" ++ d.name ++ "** - " ++ d.specialty.getD "General Practice" ++ "\n" ++
  (if strTruthy d.address then "   📍 " ++ d.address.getD "" ++ "\n" else "") ++
  (match d.distance with | some ds => "   📏 " ++ ds ++ " km away\n" | none => "") ++
  (if strTruthy d.phone then "   📞 " ++ d.phone.getD "" ++ "\n" else "") ++
  (if strTruthy d.id then "   🆔 ID: " ++ d.id.getD "" ++ "\n" else "") ++ "\n"

/-- The rendered summary of a search_doctors result. -/
def searchSummary (specialty : String) (doctors : List Doctor) : String :=
  if !doctors.isEmpty then
    "I found " ++ toString doctors.length ++ " doctor(s) matching your search:\n\n" ++
    String.join ((doctors.take 10).enum.map (fun p => doctorLine (p.1 + 1) p.2)) ++
    (if doctors.length > 10 then
      "... and " ++ toString (doctors.length - 10) ++ " more doctors.\n" else "") ++
    "\nWould you like to book an appointment with one of these doctors? Just let me know which doctor and your preferred time."
  else
    "I couldn't find any " ++ specialty ++ " doctors in your area within the search radius. Try:\n- Expanding your search radius\n- Checking a different specialty\n- Or specify a different location"

/-- The rendered summary of a non-empty check_availability result; slot
formatting goes through the datetime helper and falls back to the raw
timestamps when it raises. -/
def availSummary (b : Backend) (slots : List Slot) : String :=
  "I found " ++ toString slots.length ++ " available time slot(s):\n\n" ++
  String.join ((slots.take 10).enum.map (fun p =>
    match b.fmtSlotRange p.2.start p.2.stop with
    | .ok (s1, s2) => toString (p.1 + 1) ++ ". " ++ s1 ++ " - " ++ s2 ++ "\n"
    | .error _ => toString (p.1 + 1) ++ ". " ++ p.2.start ++ " - " ++ p.2.stop ++ "\n")) ++
  (if slots.length > 10 then
    "\n... and " ++ toString (slots.length - 10) ++ " more slots available.\n" else "") ++
  "\nWhich slot would you like to book? Just say the number (e.g., 'one', '1', 'first')."

/-- The rendered summary of a schedule_appointment success (an absent
appointment id prints as Python's `None`). -/
def schedSummary : Payload → String
  | .sched id link =>
    "✅ Appointment scheduled successfully!\n\n" ++
    "📋 Appointment ID: " ++ (match id with | some s => s | none => "None") ++ "\n" ++
    (if strTruthy link then "📅 Calendar link: " ++ link.getD "" ++ "\n" else "")
  | _ => "✅ Appointment scheduled successfully!\n\n📋 Appointment ID: None\n"

/-- The search_doctors branch of `_execute_tool`. -/
def execSearch (args : Args) (loc : Option Near) (nlu : Option Nlu)
    (a : Agent) (b : Backend) : ExecOut :=
  let s0 := args.specialty
  let specialty := if strTruthy s0 then s0
    else (match nlu with | some r => r.specialty | none => s0)
  if !strTruthy specialty then
    ⟨.ok (.err "Specialty is required. Please specify what type of doctor you're looking for (e.g., cardiologist, dentist)."), a, []⟩
  else if loc.isNone && args.near.isNone then
    ⟨.ok (.err "Location is required. Please provide coordinates or enable location access."), a, []⟩
  else
    match (if args.near.isSome then args.near else loc) with
    | none => ⟨.ok (.err "Location is required"), a, []⟩
    | some near =>
      let lat := pyOrI near.lat near.latitude
      let lng := pyOrI near.lng near.longitude
      let radius := args.radiusKm.getD 10
      match b.search_doctors (specialty.getD "") lat lng radius with
      | .error e =>
        ⟨.ok (.err ("Tool execution failed: " ++ e)), a,
         [.search (specialty.getD "") lat lng radius]⟩
      | .ok doctors =>
        ⟨.ok (.ok "search_doctors" (.search doctors) (searchSummary (specialty.getD "") doctors)),
         {a with context := {a.context with last_search_results := some doctors}},
         [.search (specialty.getD "") lat lng radius]⟩

/-- The check_availability branch of `_execute_tool`. -/
def execAvail (args : Args) (a : Agent) (b : Backend) : ExecOut :=
  let doctor_id := pyOrS args.doctorId a.context.selected_doctor_id
  let s0 := args.startUtc
  let e0 := args.endUtc
  let stage : Except String (Option String × Option String) :=
    if !strTruthy s0 then
      match a.context.preferred_time with
      | some pt =>
        if !strTruthy e0 then
          match b.addOneDay pt.start with
          | .error e => .error e
          | .ok ed => .ok (some pt.start, some ed)
        else .ok (some pt.start, e0)
      | none => .ok (s0, e0)
    else .ok (s0, e0)
  match stage with
  | .error e => ⟨.ok (.err ("Tool execution failed: " ++ e)), a, []⟩
  | .ok (s1, e1) =>
    if !strTruthy doctor_id then
      ⟨.ok (.err "Please select a doctor first. I can show you available doctors if you'd like."), a, []⟩
    else if !strTruthy s1 then
      ⟨.ok (.err "Please specify when you'd like to check availability (e.g., tomorrow at 9 AM)."), a, []⟩
    else
      match (if !strTruthy e1 then b.addOneDay (s1.getD "") else .ok (e1.getD "")) with
      | .error e => ⟨.ok (.err ("Tool execution failed: " ++ e)), a, []⟩
      | .ok endv =>
        let sm := args.slotMinutes.getD 30
        match b.check_availability (doctor_id.getD "") (s1.getD "") endv sm with
        | .error e =>
          ⟨.ok (.err ("Tool execution failed: " ++ e)), a,
           [.avail (doctor_id.getD "") (s1.getD "") endv sm]⟩
        | .ok slots =>
          if slots.isEmpty then
            ⟨.ok (.ok "check_availability" (.avail slots)
               "No available slots found in that time range. Would you like to check a different time?"),
             {a with context := {a.context with available_slots := none}},
             [.avail (doctor_id.getD "") (s1.getD "") endv sm]⟩
          else
            ⟨.ok (.ok "check_availability" (.avail slots) (availSummary b slots)),
             {a with context := {a.context with available_slots := some slots}},
             [.avail (doctor_id.getD "") (s1.getD "") endv sm]⟩

/-- The backend request the schedule_appointment branch builds after field
resolution. -/
def schedReqFor (args : Args) (nlu : Option Nlu) (ui : Option UserInfo) (c : Context) : SchedReq :=
  ⟨(pyOrS args.doctorId c.selected_doctor_id).getD "",
   (resolveStart args.startUtc nlu c).getD "",
   ⟨resolveName (args.user.getD ⟨none, none⟩).name ui c,
    resolveEmail (args.user.getD ⟨none, none⟩).email ui c⟩,
   args.endUtc, args.durationMinutes.getD 30,
   pyOrS args.reason c.reason, args.notes,
   pyOrL args.symptoms
     (if strTruthy c.symptoms then some [c.symptoms.getD ""] else none)⟩

/-- The schedule_appointment branch of `_execute_tool`. -/
def execSchedule (args : Args) (nlu : Option Nlu) (ui : Option UserInfo)
    (a : Agent) (b : Backend) : ExecOut :=
  let doctor_id := pyOrS args.doctorId a.context.selected_doctor_id
  let start_utc := resolveStart args.startUtc nlu a.context
  let u0 := args.user.getD ⟨none, none⟩
  let uname := resolveName u0.name ui a.context
  let uemail := resolveEmail u0.email ui a.context
  if !strTruthy doctor_id then
    ⟨.ok (.err "Please specify which doctor you'd like to book with. I can show you available doctors if you'd like."), a, []⟩
  else if !strTruthy start_utc then
    ⟨.ok (.err "Please specify when you'd like the appointment (e.g., tomorrow at 9 AM)."), a, []⟩
  else if !strTruthy uname then
    ⟨.ok (.err "Please provide your name."), a, []⟩
  else if !strTruthy uemail then
    ⟨.ok (.err "Please provide your email address."), a, []⟩
  else
    let req : SchedReq := schedReqFor args nlu ui a.context
    match b.schedule_appointment req with
    | .error e => ⟨.ok (.err ("Tool execution failed: " ++ e)), a, [.sched req]⟩
    | .ok payload =>
      ⟨.ok (.ok "schedule_appointment" payload (schedSummary payload)), a, [.sched req]⟩

/-- The geocode branch of `_execute_tool`. -/
def execGeo (args : Args) (a : Agent) (b : Backend) : ExecOut :=
  let query := pyOrS args.query args.q
  if !strTruthy query then ⟨.ok (.err "Location query is required"), a, []⟩
  else
    match b.geocode (query.getD "") with
    | .error e => ⟨.ok (.err ("Tool execution failed: " ++ e)), a, [.geo (query.getD "")]⟩
    | .ok dn =>
      ⟨.ok (.ok "geocode" (.geo dn)
         ("Found location: " ++ (match dn with | some s => s | none => query.getD ""))),
       a, [.geo (query.getD "")]⟩

/-- Dispatch on the tool name (the if/elif chain of `_execute_tool`). -/
def execDispatch (tc : ToolCall) (loc : Option Near) (nlu : Option Nlu)
    (ui : Option UserInfo) (a : Agent) (b : Backend) : ExecOut :=
  if tc.name = some "search_doctors" then execSearch tc.args loc nlu a b
  else if tc.name = some "check_availability" then execAvail tc.args a b
  else if tc.name = some "schedule_appointment" then execSchedule tc.args nlu ui a b
  else if tc.name = some "geocode" then execGeo tc.args a b
  else ⟨.ok (.err ("Unknown tool: " ++ (match tc.name with | some n => n | none => "None"))), a, []⟩

/-- The connection-failure error of the one-shot connectivity probe. -/
def connFailMsg : String :=
  "Could not connect to API server. Please ensure:\n1. API server is running\n2. API_BASE_URL is set correctly\n3. BACKEND_API_KEY is set if required"

/-- The source's `_execute_tool`: the one-shot connectivity probe (whose
raised exception propagates, leaving the flag unset), then the branch
dispatch.  Every backend interaction is appended to the trace. -/
def execute_tool (tc : ToolCall) (loc : Option Near) (nlu : Option Nlu)
    (ui : Option UserInfo) (a : Agent) (b : Backend) : ExecOut :=
  if a.api_connection_tested then execDispatch tc loc nlu ui a b
  else
    match b.test_connection with
    | .error e => ⟨.error e, a, [.probe]⟩
    | .ok connected =>
      let a' := {a with api_connection_tested := true}
      if connected then
        let r := execDispatch tc loc nlu ui a' b
        ⟨r.res, r.st, .probe :: r.calls⟩
      else ⟨.ok (.err connFailMsg), a', [.probe]⟩

/-- The system prompt supplied at initialization (`__init__`), with JSON
braces written as their code points. -/
def initPrompt : String :=
  "You are a helpful AI assistant for booking doctor appointments. \n" ++
  "You can help users:\n" ++
  "1. Search for doctors by specialty and location\n" ++
  "2. Check doctor availability\n" ++
  "3. Schedule appointments\n" ++
  "\n" ++
  "IMPORTANT RULES:\n" ++
  "- Always use the available tools (search_doctors, check_availability, schedule_appointment) to get real data\n" ++
  "- Never make up doctor names, locations, or availability\n" ++
  "- When the user provides information like email, name, or time preference, extract and use it immediately\n" ++
  "- If the user mentions a specialty (like \"cardiologist\", \"dentist\", \"cardiology\"), ALWAYS call search_doctors tool FIRST\n" ++
  "- When searching, use the specialty as mentioned by the user (the system will normalize it)\n" ++
  "- After showing search results, if the user selects a doctor AND you have their name, time, and email, IMMEDIATELY call schedule_appointment\n" ++
  "- Don't ask for confirmation if you have all required information - just book it!\n" ++
  "- Be conversational and helpful\n" ++
  "- Keep responses concise for voice interaction\n" ++
  "- When showing doctor search results, clearly list all doctors with their names, addresses, and IDs\n" ++
  "- When booking, use the EXACT doctor ID from the search results, not the name\n" ++
  "\n" ++
  "When you need to use a tool, respond with JSON in this format:\n" ++
  "\x7b\n" ++
  "  \"response\": \"Your conversational response to the user\",\n" ++
  "  \"tool\": \x7b\n" ++
  "    \"name\": \"tool_name\",\n" ++
  "    \"arguments\": \x7b...\x7d\n" ++
  "  \x7d\n" ++
  "\x7d\n" ++
  "\n" ++
  "If no tool is needed, just respond with:\n" ++
  "\x7b\n" ++
  "  \"response\": \"Your conversational response\"\n" ++
  "\x7d\n" ++
  "\n" ++
  "EXAMPLES:\n" ++
  "User: \"I need a cardiologist\"\n" ++
  "You: \x7b\"response\": \"I'll search for cardiologists near you.\", \"tool\": \x7b\"name\": \"search_doctors\", \"arguments\": \x7b\"specialty\": \"cardiologist\"\x7d\x7d\x7d\n" ++
  "\n" ++
  "User: \"book for Dr Leila Benali\" (after search results shown, and you have name, time from context)\n" ++
  "You: \x7b\"response\": \"I'll book your appointment with Dr. Leila Benali for tomorrow at 9:00 AM. What's your email address?\", \"tool\": null\x7d\n" ++
  "\n" ++
  "User: \"my email is ahmed@example.com\" (after you have doctor ID, name, time)\n" ++
  "You: \x7b\"response\": \"Perfect! Booking your appointment now.\", \"tool\": \x7b\"name\": \"schedule_appointment\", \"arguments\": \x7b\"doctorId\": \"cmi3rnrxr0003c1wf56celpxw\", \"startUtc\": \"2024-01-15T09:00:00Z\", \"user\": \x7b\"name\": \"Ahmed\", \"email\": \"ahmed@example.com\"\x7d\x7d\x7d\x7d\n" ++
  "\n" ++
  "User: \"can you book an appointment to me tomorrow 9:00 a.m. for cardiologist my name is Ahmed and I feel some sharp pain in my heart\"\n" ++
  "You: \x7b\"response\": \"I'll search for cardiologists near you, Ahmed. Then we can book your appointment for tomorrow at 9 AM.\", \"tool\": \x7b\"name\": \"search_doctors\", \"arguments\": \x7b\"specialty\": \"cardiologist\"\x7d\x7d\x7d"

/-- The (different, one-line) system prompt supplied by
`reset_conversation`. -/
def resetPrompt : String :=
  "You are a helpful AI assistant for booking doctor appointments."

/-- A freshly constructed `VoiceAgent` (`__init__`). -/
def initAgent : Agent :=
  ⟨false, emptyContext, [⟨"system", initPrompt⟩]⟩

/-- The source's `reset_conversation`: history back to a single system
turn (with `resetPrompt`, not `initPrompt`) and an all-empty context; the
connectivity-probe flag is not touched. -/
def reset_conversation (a : Agent) : Agent :=
  {a with conversation_history := [⟨"system", resetPrompt⟩], context := emptyContext}

/-- The NLU context update of `process_message` (lines 102–106). -/
def phase1nlu (nlu : Option Nlu) (c0 : Context) : Context :=
  match nlu with
  | some r =>
    let cA := if strTruthy r.specialty then {c0 with specialty := r.specialty} else c0
    if r.dateRange.isSome then {cA with preferred_time := r.dateRange} else cA
  | none => c0

/-- The extracted-user-info context update (lines 113–121). -/
def phase1info (ui : UserInfo) (c1 : Context) : Context :=
  let c2 := if strTruthy ui.name then {c1 with user_name := ui.name} else c1
  let c3 := if strTruthy ui.email then {c2 with user_email := ui.email} else c2
  let c4 := if strTruthy ui.symptoms then {c3 with symptoms := ui.symptoms} else c3
  if strTruthy ui.reason then {c4 with reason := ui.reason} else c4

/-- The doctor-matcher context update (lines 123–128). -/
def phase1doctor (message : String) (c5 : Context) : Context :=
  if listTruthy c5.last_search_results then
    let m := match_doctor_name message (c5.last_search_results.getD [])
    if strTruthy m then {c5 with selected_doctor_id := m} else c5
  else c5

/-- The slot-selection context update (lines 130–143). -/
def phase1slot (message : String) (c6 : Context) : Context :=
  if listTruthy c6.available_slots then
    match parse_slot_selection message with
    | some n =>
      let slots := c6.available_slots.getD []
      if 1 ≤ n && n ≤ slots.length then
        match slots[n-1]? with
        | some sl => {c6 with preferred_time := some ⟨sl.start, sl.stop⟩}
        | none => c6
      else c6
    | none => c6
  else c6

/-- The pre-LLM part of `process_message`: NLU context updates, entity
extraction, doctor matching, slot selection, and the user-turn append. -/
def phase1 (a : Agent) (message : String) (nlu : Option Nlu) : Agent × UserInfo :=
  let ui := extract_user_info message
  let c7 := phase1slot message (phase1doctor message (phase1info ui (phase1nlu nlu a.context)))
  ({a with
      context := c7
      conversation_history := a.conversation_history ++ [⟨"user", message⟩]}, ui)

/-- Intermediate turn state after the LLM reply has been handled: the
reply text so far, the tool result so far, the agent state and the trace. -/
structure Mid where
  msg : String
  toolRes : Option ToolResult
  agent : Agent
  calls : List BCall

/-- The local `specialty` variable of the decode-failure branch: the NLU
specialty when the NLU declared a search intent, else the context
specialty when truthy. -/
def implicitSpecialty (nlu : Option Nlu) (c : Context) : Option String :=
  match nlu with
  | some r =>
    if r.intent = "search_doctors" then r.specialty
    else if strTruthy c.specialty then c.specialty else none
  | none => if strTruthy c.specialty then c.specialty else none

/-- Handling of the parsed LLM reply (the big `try` of lines 174–243):
the tool branch, the `null`-tool `AttributeError`, and the decode-failure
branch with its implicit search trigger.  An `Except.error` is an
exception that escapes to the outer handler, carrying the state and trace
at that point. -/
def afterLLM (raw : String) (p : Parse) (message : String) (loc : Option Near)
    (nlu : Option Nlu) (ui : UserInfo) (a1 : Agent) (b : Backend) :
    Except (String × Agent × List BCall) Mid :=
  match p with
  | .noJson => .ok ⟨raw, none, a1, []⟩
  | .ok resp tf =>
    match tf with
    | .absent => .ok ⟨raw, none, a1, []⟩
    | .null => .error ("'NoneType' object has no attribute 'get'", a1, [])
    | .call tc0 =>
      let tc :=
        if tc0.name = some "search_doctors" && !strTruthy tc0.args.specialty then
          match nlu with
          | some r =>
            if strTruthy r.specialty then
              {tc0 with args := {tc0.args with specialty := r.specialty}}
            else tc0
          | none => tc0
        else tc0
      let r := execute_tool tc loc nlu (some ui) a1 b
      match r.res with
      | .error e => .error (e, r.st, r.calls)
      | .ok tr =>
        let base := resp.getD raw
        let msg2 := match tr with
          | .err e => base ++ "\n\nError: " ++ e
          | .ok _ _ s => base ++ "\n\n" ++ s
        .ok ⟨msg2, some tr, r.st, r.calls⟩
  | .fail =>
    let s := implicitSpecialty nlu a1.context
    if (strTruthy s || strTruthy a1.context.specialty) && loc.isSome then
      if hasGavePhrase message then
        let s2 := pyOrS s a1.context.specialty
        let r := execute_tool ⟨some "search_doctors", {noArgs with specialty := s2}⟩
          loc nlu (some ui) a1 b
        match r.res with
        | .error e => .error (e, r.st, r.calls)
        | .ok tr =>
          let msg2 := match tr with
            | .ok _ _ s3 => raw ++ "\n\n" ++ s3
            | .err _ => raw
          .ok ⟨msg2, some tr, r.st, r.calls⟩
      else .ok ⟨raw, none, a1, []⟩
    else if strTruthy s && loc.isSome then
      let r := execute_tool ⟨some "search_doctors", {noArgs with specialty := s}⟩
        loc nlu (some ui) a1 b
      match r.res with
      | .error e => .error (e, r.st, r.calls)
      | .ok tr =>
        let msg2 := match tr with
          | .ok _ _ s3 => raw ++ "\n\n" ++ s3
          | .err _ => raw
        .ok ⟨msg2, some tr, r.st, r.calls⟩
    else .ok ⟨raw, none, a1, []⟩

/-- The argument dictionary both auto-book paths build from the context. -/
def autoBookArgs (c : Context) (slot_start : String) : Args :=
  {noArgs with
      doctorId := c.selected_doctor_id
      startUtc := some slot_start
      user := some ⟨c.user_name, c.user_email⟩
      reason := c.reason
      symptoms := if strTruthy c.symptoms then some [c.symptoms.getD ""] else none}

/-- The slot-booking auto-fire (lines 245–290): with slots, doctor, name
and email present, no tool yet, and a valid slot number in the utterance,
update the preferred time and book that slot immediately. -/
def step8 (message : String) (loc : Option Near) (nlu : Option Nlu) (ui : UserInfo)
    (b : Backend) (m : Mid) : Except (String × Agent × List BCall) Mid :=
  let c := m.agent.context
  if listTruthy c.available_slots && strTruthy c.selected_doctor_id &&
     strTruthy c.user_name && strTruthy c.user_email && m.toolRes.isNone then
    match parse_slot_selection message with
    | some n =>
      let slots := c.available_slots.getD []
      if 1 ≤ n && n ≤ slots.length then
        match slots[n-1]? with
        | some sl =>
          let a' := {m.agent with context := {c with preferred_time := some ⟨sl.start, sl.stop⟩}}
          let r := execute_tool ⟨some "schedule_appointment", autoBookArgs c sl.start⟩
            loc nlu (some ui) a' b
          match r.res with
          | .error e => .error (e, r.st, m.calls ++ r.calls)
          | .ok tr =>
            match tr with
            | .ok t pl s =>
              .ok ⟨"Perfect! Booking slot " ++ toString n ++ " for you.\n\n" ++ s,
                some (.ok t pl s),
                {r.st with context := {r.st.context with available_slots := none}},
                m.calls ++ r.calls⟩
            | .err e =>
              .ok ⟨m.msg ++ "\n\nError: " ++ e, m.toolRes, r.st, m.calls ++ r.calls⟩
        | none => .ok m
      else .ok m
    | none => .ok m
  else .ok m

/-- The full-information auto-fire (lines 292–331): with doctor, name,
preferred time and email present, no tool yet, and a confirming phrase or
a freshly extracted email, book using the accumulated state. -/
def step9 (message : String) (loc : Option Near) (nlu : Option Nlu) (ui : UserInfo)
    (b : Backend) (m : Mid) : Except (String × Agent × List BCall) Mid :=
  let c := m.agent.context
  if strTruthy c.selected_doctor_id && strTruthy c.user_name &&
     c.preferred_time.isSome && strTruthy c.user_email && m.toolRes.isNone then
    let should_book := hasConfirmPhrase message || strTruthy ui.email
    if should_book then
      let r := execute_tool
        ⟨some "schedule_appointment", autoBookArgs c ((c.preferred_time.getD ⟨"", ""⟩).start)⟩
        loc nlu (some ui) m.agent b
      match r.res with
      | .error e => .error (e, r.st, m.calls ++ r.calls)
      | .ok tr =>
        match tr with
        | .ok t pl s =>
          .ok ⟨m.msg ++ "\n\n" ++ s, some (.ok t pl s), r.st, m.calls ++ r.calls⟩
        | .err e =>
          .ok ⟨m.msg ++ "\n\nError: " ++ e, m.toolRes, r.st, m.calls ++ r.calls⟩
    else .ok m
  else .ok m

/-- The source's `process_message`: phase 1, then the LLM call (whose
raise, like any exception escaping the big `try`, yields the apology turn
with the error recorded), then the two auto-fire steps, then the
assistant-turn append.  Total by construction — no failure escapes. -/
def process_message (a : Agent) (message : String) (loc : Option Near)
    (nlu : Option Nlu) (llm : LLM) (b : Backend) : PMOut × Agent × List BCall :=
  let p1 := phase1 a message nlu
  let a1 := p1.1
  let ui := p1.2
  match llm with
  | .raise e =>
    let err := "Sorry, I encountered an error: " ++ e
    (⟨err, none, some e⟩,
     {a1 with conversation_history := a1.conversation_history ++ [⟨"assistant", err⟩]}, [])
  | .reply raw p =>
    match (afterLLM raw p message loc nlu ui a1 b).bind
        (fun m => (step8 message loc nlu ui b m).bind (step9 message loc nlu ui b)) with
    | .error (e, aE, calls) =>
      let err := "Sorry, I encountered an error: " ++ e
      (⟨err, none, some e⟩,
       {aE with conversation_history := aE.conversation_history ++ [⟨"assistant", err⟩]}, calls)
    | .ok m =>
      (⟨m.msg, m.toolRes, none⟩,
       {m.agent with conversation_history := m.agent.conversation_history ++ [⟨"assistant", m.msg⟩]},
       m.calls)

/-- Whether the decode-failure branch's implicit search fires: specialty
available, location available, and an "already provided" phrase present
(the specialty-and-location-only arm is unreachable, as proved below). -/
def implicitFires (message : String) (loc : Option Near) (nlu : Option Nlu) (c : Context) : Bool :=
  let s := implicitSpecialty nlu c
  (strTruthy s || strTruthy c.specialty) && loc.isSome && hasGavePhrase message

/-- Whether the turn reaches the auto-book checks with no tool executed:
the LLM replied, its output parsed to no tool call (and did not abort on a
`null` tool field), and the implicit search did not fire.  `c` is the
post-phase-1 context. -/
def noToolBeforeAutoBook (message : String) (loc : Option Near) (nlu : Option Nlu)
    (llm : LLM) (c : Context) : Bool :=
  match llm with
  | .raise _ => false
  | .reply _ p =>
    match p with
    | .noJson => true
    | .fail => !implicitFires message loc nlu c
    | .ok _ .absent => true
    | .ok _ .null => false
    | .ok _ (.call _) => false

/-- A word of the (amended) name shape: at least two characters, all ASCII
letters (one letter matched by `[A-Z]` and one or more by `[a-z]+`, both
case-insensitive under `IGNORECASE`). -/
def IsNameWord (w : List Char) : Prop :=
  2 ≤ w.length ∧ ∀ c ∈ w, isAlphaCh c = true

/-- A non-empty whitespace run (`\s+`). -/
def IsWsRun (s : List Char) : Prop :=
  s ≠ [] ∧ ∀ c ∈ s, isSpaceCh c = true

/-- The repeated part of the captured name: zero or more
whitespace-then-word blocks. -/
inductive NameTail : List Char → Prop where
  | nil : NameTail []
  | cons {s w t : List Char} :
      IsWsRun s → IsNameWord w → NameTail t → NameTail (s ++ w ++ t)

/-- The shape of the captured name group: a word followed by zero or more
whitespace-then-word blocks. -/
def NameShape (n : List Char) : Prop :=
  ∃ w t, IsNameWord w ∧ NameTail t ∧ n = w ++ t

/-- A well-behaved concrete backend used by witnesses: the probe succeeds
and every action answers. -/
def bTest : Backend :=
  ⟨.ok true,
   fun _ _ _ _ => .ok [⟨some "d1", "Dr. Amina Said", some "cardiology", none, none, none⟩],
   fun _ _ _ _ => .ok [⟨"2024-01-15T09:00:00Z", "2024-01-15T09:30:00Z"⟩],
   fun _ => .ok (.sched (some "apt1") none),
   fun _ => .ok (some "Casablanca"),
   fun s => .ok (s ++ "+1d"),
   fun s e => .ok (s, e)⟩

/-- A session context holding the four booking prerequisites. -/
def ctxFull : Context :=
  {emptyContext with
      selected_doctor_id := some "d1"
      user_name := some "Ahmed"
      user_email := some "a@b.com"
      preferred_time := some ⟨"2024-01-15T09:00:00Z", "2024-01-15T09:30:00Z"⟩}

/-- An agent with a probed connection and full booking state. -/
def aFull : Agent := ⟨true, ctxFull, [⟨"system", initPrompt⟩]⟩

/-- The backend-call trace of an intermediate turn result, whether the
stage completed or aborted with an exception. -/
def afterCalls : Except (String × Agent × List BCall) Mid → List BCall
  | .ok m => m.calls
  | .error (_, _, cs) => cs

theorem strTruthy_some_iff (s : String) : strTruthy (some s) = true ↔ s ≠ "" := by
  simp [strTruthy, ← String.isEmpty_iff]

theorem strTruthy_pyOrS (a b : Option String) :
    strTruthy (pyOrS a b) = (strTruthy a || strTruthy b) := by
  unfold pyOrS
  by_cases h : strTruthy a = true <;> simp [h]

theorem phase1_flag (a : Agent) (msg : String) (nlu : Option Nlu) :
    (phase1 a msg nlu).1.api_connection_tested = a.api_connection_tested := rfl

theorem phase1_ui (a : Agent) (msg : String) (nlu : Option Nlu) :
    (phase1 a msg nlu).2 = extract_user_info msg := rfl

theorem phase1_history (a : Agent) (msg : String) (nlu : Option Nlu) :
    (phase1 a msg nlu).1.conversation_history =
      a.conversation_history ++ [⟨"user", msg⟩] := rfl

theorem phase1nlu_slots (nlu : Option Nlu) (c : Context) :
    (phase1nlu nlu c).available_slots = c.available_slots := by
  simp only [phase1nlu]
  cases nlu
  · rfl
  · dsimp only
    split_ifs <;> rfl

theorem phase1info_slots (ui : UserInfo) (c : Context) :
    (phase1info ui c).available_slots = c.available_slots := by
  simp only [phase1info]
  split_ifs <;> rfl

theorem phase1doctor_slots (msg : String) (c : Context) :
    (phase1doctor msg c).available_slots = c.available_slots := by
  simp only [phase1doctor]
  split_ifs <;> rfl

theorem phase1slot_slots (msg : String) (c : Context) :
    (phase1slot msg c).available_slots = c.available_slots := by
  simp only [phase1slot]
  repeat' split
  all_goals rfl

theorem phase1nlu_results (nlu : Option Nlu) (c : Context) :
    (phase1nlu nlu c).last_search_results = c.last_search_results := by
  simp only [phase1nlu]
  cases nlu
  · rfl
  · dsimp only
    split_ifs <;> rfl

theorem phase1info_results (ui : UserInfo) (c : Context) :
    (phase1info ui c).last_search_results = c.last_search_results := by
  simp only [phase1info]
  split_ifs <;> rfl

theorem phase1slot_selected (msg : String) (c : Context) :
    (phase1slot msg c).selected_doctor_id = c.selected_doctor_id := by
  simp only [phase1slot]
  repeat' split
  all_goals rfl

theorem exec_tested (tc : ToolCall) (loc : Option Near) (nlu : Option Nlu)
    (ui : Option UserInfo) (a : Agent) (b : Backend)
    (h : a.api_connection_tested = true) :
    execute_tool tc loc nlu ui a b = execDispatch tc loc nlu ui a b := by
  simp [execute_tool, h]

theorem dispatch_sched (args : Args) (loc : Option Near) (nlu : Option Nlu)
    (ui : Option UserInfo) (a : Agent) (b : Backend) :
    execDispatch ⟨some "schedule_appointment", args⟩ loc nlu ui a b =
      execSchedule args nlu ui a b := by
  simp [execDispatch]

theorem dispatch_search (args : Args) (loc : Option Near) (nlu : Option Nlu)
    (ui : Option UserInfo) (a : Agent) (b : Backend) :
    execDispatch ⟨some "search_doctors", args⟩ loc nlu ui a b =
      execSearch args loc nlu a b := by
  simp [execDispatch]

/-- CLAIM C4, counterexample: even with no prior turns, the history after
`reset_conversation` is not the history supplied at initialization — the
reset system prompt differs from the initialization system prompt. -/
theorem c4_counterexample :
    (reset_conversation initAgent).conversation_history ≠
      initAgent.conversation_history := by
  decide

/-- CLAIM C4 (amended): after `reset_conversation`, the session state is
the all-empty initial context and the history is exactly one system turn —
but its content is the short reset prompt, which differs from the system
prompt supplied at initialization. -/
theorem c4_reset (a : Agent) :
    (reset_conversation a).context = emptyContext ∧
    (reset_conversation a).conversation_history = [⟨"system", resetPrompt⟩] ∧
    resetPrompt ≠ initPrompt :=
  ⟨rfl, rfl, by decide⟩

/-- CLAIM C7: when the language-model call raises, `process_message` still
returns: the reply is the apology containing the error text, the `error`
field carries the error string, no tool result is returned, the user turn
and the error reply are both recorded in history, and no backend call is
made.  (`process_message` is a total function, so it never raises by
construction.) -/
theorem c7_llm_error (a : Agent) (msg : String) (loc : Option Near)
    (nlu : Option Nlu) (e : String) (b : Backend) :
    (process_message a msg loc nlu (.raise e) b).1.response =
        "Sorry, I encountered an error: " ++ e ∧
    (process_message a msg loc nlu (.raise e) b).1.error = some e ∧
    (process_message a msg loc nlu (.raise e) b).1.tool_result = none ∧
    (process_message a msg loc nlu (.raise e) b).2.1.conversation_history =
      a.conversation_history ++
        [⟨"user", msg⟩, ⟨"assistant", "Sorry, I encountered an error: " ++ e⟩] ∧
    (process_message a msg loc nlu (.raise e) b).2.2 = [] := by
  refine ⟨rfl, rfl, rfl, ?_, rfl⟩
  show (phase1 a msg nlu).1.conversation_history ++ _ = _
  rw [phase1_history, List.append_assoc]
  rfl

/-- Witness for C7 at a concrete input. -/
theorem c7_witness :
    (process_message initAgent "hi" none none (.raise "boom") bTest).1.error =
      some "boom" :=
  (c7_llm_error initAgent "hi" none none "boom" bTest).2.1

/-- CLAIM C6, counterexample: with no explicit argument, an NLU date range
whose start is empty, and a non-empty session preferred time, resolution
returns the empty NLU value instead of the first non-empty value — so
"first non-empty wins" fails at the NLU-to-state fallback. -/
theorem c6_counterexample :
    resolveStart none
        (some ⟨"schedule_appointment", none, some ⟨"", "2024-01-16T00:00:00Z"⟩⟩)
        {emptyContext with preferred_time := some ⟨"2024-01-15T09:00:00Z", "2024-01-15T09:30:00Z"⟩} =
      some "" ∧
    some "" ≠ some ("2024-01-15T09:00:00Z") ∧
    strTruthy (some "") = false :=
  ⟨rfl, by decide, rfl⟩

/-- CLAIM C6 (amended): start-time resolution follows the priority
explicit argument → NLU date range → session state, where a non-empty
explicit argument always wins and the NLU step triggers on the presence of
the dateRange object (its start is used even when empty, and session state
is then not consulted); session state is used only when no NLU dateRange
exists. -/
theorem c6_resolution :
    (∀ (s : String) (nlu : Option Nlu) (c : Context), s ≠ "" →
      resolveStart (some s) nlu c = some s) ∧
    (∀ (st : Option String) (r : Nlu) (dr : DateRange) (c : Context) (pt : DateRange),
      strTruthy st = false → r.dateRange = some dr → c.preferred_time = some pt →
      resolveStart st (some r) c = some dr.start) ∧
    (∀ (st : Option String) (c : Context) (pt : DateRange),
      strTruthy st = false → c.preferred_time = some pt →
      resolveStart st none c = some pt.start) := by
  refine ⟨?_, ?_, ?_⟩
  · intro s nlu c hs
    have h : strTruthy (some s) = true := (strTruthy_some_iff s).mpr hs
    simp [resolveStart, h]
  · intro st r dr c pt hst hdr hpt
    simp [resolveStart, hst, hdr]
  · intro st c pt hst hpt
    simp [resolveStart, hst, hpt]

/-- Witness for C6 at concrete inputs: the explicit argument wins over
both NLU and state; the NLU value wins over state. -/
theorem c6_witness :
    resolveStart (some "2024-01-15T09:00:00Z")
        (some ⟨"i", none, some ⟨"N", "M"⟩⟩) ctxFull = some "2024-01-15T09:00:00Z" ∧
    resolveStart none (some ⟨"i", none, some ⟨"N", "M"⟩⟩) ctxFull = some "N" :=
  ⟨c6_resolution.1 "2024-01-15T09:00:00Z" _ ctxFull (by decide),
   c6_resolution.2.1 none ⟨"i", none, some ⟨"N", "M"⟩⟩ ⟨"N", "M"⟩ ctxFull
     ⟨"2024-01-15T09:00:00Z", "2024-01-15T09:30:00Z"⟩ rfl rfl rfl⟩

/-- CLAIM C5: in the schedule_appointment branch (with the connection
already probed), missing fields are checked in the order doctor id, start
time, user name, user email, each with its own error; in particular with
doctor id, name and email all missing the result is exactly the "please
specify which doctor" error.  The four error strings are pairwise
distinct. -/
theorem c5_field_order (args : Args) (loc : Option Near) (nlu : Option Nlu)
    (ui : Option UserInfo) (a : Agent) (b : Backend)
    (hflag : a.api_connection_tested = true) :
    (strTruthy (pyOrS args.doctorId a.context.selected_doctor_id) = false →
      (execute_tool ⟨some "schedule_appointment", args⟩ loc nlu ui a b).res =
        .ok (.err "Please specify which doctor you'd like to book with. I can show you available doctors if you'd like.")) ∧
    (strTruthy (pyOrS args.doctorId a.context.selected_doctor_id) = true →
     strTruthy (resolveStart args.startUtc nlu a.context) = false →
      (execute_tool ⟨some "schedule_appointment", args⟩ loc nlu ui a b).res =
        .ok (.err "Please specify when you'd like the appointment (e.g., tomorrow at 9 AM).")) ∧
    (strTruthy (pyOrS args.doctorId a.context.selected_doctor_id) = true →
     strTruthy (resolveStart args.startUtc nlu a.context) = true →
     strTruthy (resolveName (args.user.getD ⟨none, none⟩).name ui a.context) = false →
      (execute_tool ⟨some "schedule_appointment", args⟩ loc nlu ui a b).res =
        .ok (.err "Please provide your name.")) ∧
    (strTruthy (pyOrS args.doctorId a.context.selected_doctor_id) = true →
     strTruthy (resolveStart args.startUtc nlu a.context) = true →
     strTruthy (resolveName (args.user.getD ⟨none, none⟩).name ui a.context) = true →
     strTruthy (resolveEmail (args.user.getD ⟨none, none⟩).email ui a.context) = false →
      (execute_tool ⟨some "schedule_appointment", args⟩ loc nlu ui a b).res =
        .ok (.err "Please provide your email address.")) ∧
    ([("Please specify which doctor you'd like to book with. I can show you available doctors if you'd like." : String),
      "Please specify when you'd like the appointment (e.g., tomorrow at 9 AM).",
      "Please provide your name.",
      "Please provide your email address."].Pairwise (· ≠ ·)) := by
  rw [exec_tested _ _ _ _ _ _ hflag, dispatch_sched]
  refine ⟨?_, ?_, ?_, ?_, by decide⟩
  · intro hd
    simp [execSchedule, hd]
  · intro hd hs
    simp [execSchedule, hd, hs]
  · intro hd hs hn
    simp [execSchedule, hd, hs, hn]
  · intro hd hs hn he
    simp [execSchedule, hd, hs, hn, he]

/-- Witness for C5: doctor id, name and email all missing yields exactly
the doctor error. -/
theorem c5_witness :
    (execute_tool ⟨some "schedule_appointment", noArgs⟩ none none none
        ⟨true, emptyContext, []⟩ bTest).res =
      .ok (.err "Please specify which doctor you'd like to book with. I can show you available doctors if you'd like.") :=
  (c5_field_order noArgs none none none ⟨true, emptyContext, []⟩ bTest rfl).1 rfl

theorem execSearch_flag (args : Args) (loc : Option Near) (nlu : Option Nlu)
    (a : Agent) (b : Backend) :
    (execSearch args loc nlu a b).st.api_connection_tested = a.api_connection_tested := by
  simp only [execSearch]
  repeat' split
  all_goals rfl

theorem execAvail_flag (args : Args) (a : Agent) (b : Backend) :
    (execAvail args a b).st.api_connection_tested = a.api_connection_tested := by
  simp only [execAvail]
  repeat' split
  all_goals rfl

theorem execSchedule_flag (args : Args) (nlu : Option Nlu) (ui : Option UserInfo)
    (a : Agent) (b : Backend) :
    (execSchedule args nlu ui a b).st.api_connection_tested = a.api_connection_tested := by
  simp only [execSchedule]
  repeat' split
  all_goals rfl

theorem execGeo_flag (args : Args) (a : Agent) (b : Backend) :
    (execGeo args a b).st.api_connection_tested = a.api_connection_tested := by
  simp only [execGeo]
  repeat' split
  all_goals rfl

theorem dispatch_flag (tc : ToolCall) (loc : Option Near) (nlu : Option Nlu)
    (ui : Option UserInfo) (a : Agent) (b : Backend) :
    (execDispatch tc loc nlu ui a b).st.api_connection_tested = a.api_connection_tested := by
  simp only [execDispatch]
  split_ifs <;>
    first
      | exact execSearch_flag ..
      | exact execAvail_flag ..
      | exact execSchedule_flag ..
      | exact execGeo_flag ..
      | rfl

theorem execSearch_noProbe (args : Args) (loc : Option Near) (nlu : Option Nlu)
    (a : Agent) (b : Backend) :
    BCall.probe ∉ (execSearch args loc nlu a b).calls := by
  simp only [execSearch]
  repeat' split
  all_goals simp

theorem execAvail_noProbe (args : Args) (a : Agent) (b : Backend) :
    BCall.probe ∉ (execAvail args a b).calls := by
  simp only [execAvail]
  repeat' split
  all_goals simp

theorem execSchedule_noProbe (args : Args) (nlu : Option Nlu) (ui : Option UserInfo)
    (a : Agent) (b : Backend) :
    BCall.probe ∉ (execSchedule args nlu ui a b).calls := by
  simp only [execSchedule]
  repeat' split
  all_goals simp

theorem execGeo_noProbe (args : Args) (a : Agent) (b : Backend) :
    BCall.probe ∉ (execGeo args a b).calls := by
  simp only [execGeo]
  repeat' split
  all_goals simp

theorem dispatch_noProbe (tc : ToolCall) (loc : Option Near) (nlu : Option Nlu)
    (ui : Option UserInfo) (a : Agent) (b : Backend) :
    BCall.probe ∉ (execDispatch tc loc nlu ui a b).calls := by
  simp only [execDispatch]
  split_ifs <;>
    first
      | apply execSearch_noProbe
      | apply execAvail_noProbe
      | apply execSchedule_noProbe
      | apply execGeo_noProbe
      | simp

theorem exec_flag_true (tc : ToolCall) (loc : Option Near) (nlu : Option Nlu)
    (ui : Option UserInfo) (a : Agent) (b : Backend) (cn : Bool)
    (hconn : b.test_connection = .ok cn) :
    (execute_tool tc loc nlu ui a b).st.api_connection_tested = true := by
  unfold execute_tool
  by_cases hf : a.api_connection_tested = true
  · simp [hf, dispatch_flag]
  · simp only [hf, if_neg, Bool.not_eq_true, if_false, hconn]
    cases cn <;> simp [dispatch_flag]

/-- CLAIM C10: once a tool call has run (and its connectivity probe
completed), the probe flag is set; `reset_conversation` leaves it
unchanged, so tool calls after a reset never re-run the health probe. -/
theorem c10_probe_flag (tc tc2 : ToolCall) (loc loc2 : Option Near)
    (nlu nlu2 : Option Nlu) (ui ui2 : Option UserInfo) (a : Agent)
    (b b2 : Backend) (cn : Bool)
    (hconn : b.test_connection = Except.ok cn) :
    (execute_tool tc loc nlu ui a b).st.api_connection_tested = true ∧
    (reset_conversation (execute_tool tc loc nlu ui a b).st).api_connection_tested =
      (execute_tool tc loc nlu ui a b).st.api_connection_tested ∧
    BCall.probe ∉
      (execute_tool tc2 loc2 nlu2 ui2
        (reset_conversation (execute_tool tc loc nlu ui a b).st) b2).calls := by
  have h1 := exec_flag_true tc loc nlu ui a b cn hconn
  refine ⟨h1, rfl, ?_⟩
  have h2 : (reset_conversation (execute_tool tc loc nlu ui a b).st).api_connection_tested = true := h1
  rw [exec_tested _ _ _ _ _ _ h2]
  apply dispatch_noProbe

/-- Witness for C10: after one tool call and a reset, the next tool call
makes no probe. -/
theorem c10_witness :
    BCall.probe ∉
      (execute_tool ⟨some "geocode", noArgs⟩ none none none
        (reset_conversation (execute_tool ⟨some "geocode", noArgs⟩ none none none
          ⟨false, emptyContext, []⟩ bTest).st) bTest).calls :=
  (c10_probe_flag ⟨some "geocode", noArgs⟩ ⟨some "geocode", noArgs⟩ none none
    none none none none ⟨false, emptyContext, []⟩ bTest bTest true rfl).2.2

/-- CLAIM C8: when the doctor matcher matches against the last search
results, the selected doctor id is overwritten with the matched id while
`available_slots` is left exactly as it was — re-selecting a doctor does
not clear previously fetched slots. -/
theorem c8_slots_preserved (a : Agent) (msg : String) (nlu : Option Nlu)
    (ds : List Doctor) (id : String)
    (hls : a.context.last_search_results = some ds)
    (hne : ds.isEmpty = false)
    (hm : match_doctor_name msg ds = some id)
    (hid : id ≠ "") :
    (phase1 a msg nlu).1.context.selected_doctor_id = some id ∧
    (phase1 a msg nlu).1.context.available_slots = a.context.available_slots := by
  constructor
  · show (phase1slot msg (phase1doctor msg
      (phase1info (extract_user_info msg) (phase1nlu nlu a.context)))).selected_doctor_id = some id
    rw [phase1slot_selected]
    have hres : (phase1info (extract_user_info msg) (phase1nlu nlu a.context)).last_search_results
        = some ds := by
      rw [phase1info_results, phase1nlu_results, hls]
    unfold phase1doctor
    rw [hres]
    simp [listTruthy, hne, hm, (strTruthy_some_iff id).mpr hid]
  · show (phase1slot msg (phase1doctor msg
      (phase1info (extract_user_info msg) (phase1nlu nlu a.context)))).available_slots = _
    rw [phase1slot_slots, phase1doctor_slots, phase1info_slots, phase1nlu_slots]

/-- Witness for C8: re-selecting doctor d1 (over the previously selected
dOld) leaves the previously fetched slots in place. -/
theorem c8_witness :
    (phase1 ⟨true,
        {emptyContext with
            last_search_results := some
              [⟨some "d1", "Dr. Amina Said", none, none, none, none⟩,
               ⟨some "d2", "Dr. Amina Noor", none, none, none, none⟩]
            selected_doctor_id := some "dOld"
            available_slots := some [⟨"2024-01-15T09:00:00Z", "2024-01-15T09:30:00Z"⟩]},
        []⟩ "book with Amina" none).1.context.selected_doctor_id = some "d1" ∧
    (phase1 ⟨true,
        {emptyContext with
            last_search_results := some
              [⟨some "d1", "Dr. Amina Said", none, none, none, none⟩,
               ⟨some "d2", "Dr. Amina Noor", none, none, none, none⟩]
            selected_doctor_id := some "dOld"
            available_slots := some [⟨"2024-01-15T09:00:00Z", "2024-01-15T09:30:00Z"⟩]},
        []⟩ "book with Amina" none).1.context.available_slots =
      some [⟨"2024-01-15T09:00:00Z", "2024-01-15T09:30:00Z"⟩] :=
  c8_slots_preserved _ "book with Amina" none _ "d1" rfl rfl (by decide) (by decide)

theorem afterLLM_noTool (raw : String) (p : Parse) (msg : String) (loc : Option Near)
    (nlu : Option Nlu) (ui : UserInfo) (a1 : Agent) (b : Backend)
    (hnt : noToolBeforeAutoBook msg loc nlu (.reply raw p) a1.context = true) :
    afterLLM raw p msg loc nlu ui a1 b = .ok ⟨raw, none, a1, []⟩ := by
  cases p with
  | noJson => rfl
  | fail =>
    simp only [noToolBeforeAutoBook, Bool.not_eq_true'] at hnt
    simp only [implicitFires] at hnt
    unfold afterLLM
    by_cases hA : ((strTruthy (implicitSpecialty nlu a1.context) ||
        strTruthy a1.context.specialty) && loc.isSome) = true
    · have hph : hasGavePhrase msg = false := by
        rw [hA, Bool.true_and] at hnt
        exact hnt
      simp only [hA, if_true, hph, if_false]
      rfl
    · have hB : (strTruthy (implicitSpecialty nlu a1.context) && loc.isSome) = false := by
        cases hs : strTruthy (implicitSpecialty nlu a1.context)
        · simp
        · rw [hs] at hA
          simp at hA
          simp [hA]
      simp only [Bool.not_eq_true] at hA
      simp only [hA, if_false, hB]
      rfl
  | ok resp tf =>
    cases tf with
    | absent => rfl
    | null => simp [noToolBeforeAutoBook] at hnt
    | call tc => simp [noToolBeforeAutoBook] at hnt

theorem step8_noSlot (msg : String) (loc : Option Near) (nlu : Option Nlu)
    (ui : UserInfo) (b : Backend) (m : Mid)
    (h : parse_slot_selection msg = none) :
    step8 msg loc nlu ui b m = .ok m := by
  unfold step8
  simp [h]

theorem step8_skip (msg : String) (loc : Option Near) (nlu : Option Nlu)
    (ui : UserInfo) (b : Backend) (m : Mid) (tr : ToolResult)
    (h : m.toolRes = some tr) :
    step8 msg loc nlu ui b m = .ok m := by
  unfold step8
  have hn : m.toolRes.isNone = false := by rw [h]; rfl
  simp [hn]

theorem step9_skip (msg : String) (loc : Option Near) (nlu : Option Nlu)
    (ui : UserInfo) (b : Backend) (m : Mid) (tr : ToolResult)
    (h : m.toolRes = some tr) :
    step9 msg loc nlu ui b m = .ok m := by
  unfold step9
  have hn : m.toolRes.isNone = false := by rw [h]; rfl
  simp [hn]

theorem step9_noTrigger (msg : String) (loc : Option Near) (nlu : Option Nlu)
    (ui : UserInfo) (b : Backend) (m : Mid)
    (hcp : hasConfirmPhrase msg = false) (hem : strTruthy ui.email = false) :
    step9 msg loc nlu ui b m = .ok m := by
  unfold step9
  simp [hcp, hem]

theorem execSchedule_ok (args : Args) (nlu : Option Nlu) (ui : Option UserInfo)
    (a : Agent) (b : Backend) (pl : Payload)
    (hd : strTruthy (pyOrS args.doctorId a.context.selected_doctor_id) = true)
    (hs : strTruthy (resolveStart args.startUtc nlu a.context) = true)
    (hn : strTruthy (resolveName (args.user.getD ⟨none, none⟩).name ui a.context) = true)
    (he : strTruthy (resolveEmail (args.user.getD ⟨none, none⟩).email ui a.context) = true)
    (hb : b.schedule_appointment (schedReqFor args nlu ui a.context) = .ok pl) :
    execSchedule args nlu ui a b =
      ⟨.ok (.ok "schedule_appointment" pl (schedSummary pl)), a,
       [.sched (schedReqFor args nlu ui a.context)]⟩ := by
  unfold execSchedule
  simp [hd, hs, hn, he, hb]

theorem step9_fires (msg : String) (loc : Option Near) (nlu : Option Nlu)
    (ui : UserInfo) (b : Backend) (m : Mid) (pt : DateRange) (t : String)
    (pl : Payload) (s : String) (st' : Agent) (calls' : List BCall)
    (hdoc : strTruthy m.agent.context.selected_doctor_id = true)
    (hname : strTruthy m.agent.context.user_name = true)
    (hemail : strTruthy m.agent.context.user_email = true)
    (hpt : m.agent.context.preferred_time = some pt)
    (hm : m.toolRes = none)
    (htrig : (hasConfirmPhrase msg || strTruthy ui.email) = true)
    (hexec : execute_tool ⟨some "schedule_appointment", autoBookArgs m.agent.context pt.start⟩
        loc nlu (some ui) m.agent b = ⟨.ok (.ok t pl s), st', calls'⟩) :
    step9 msg loc nlu ui b m =
      .ok ⟨m.msg ++ "\n\n" ++ s, some (.ok t pl s), st', m.calls ++ calls'⟩ := by
  unfold step9
  simp [hdoc, hname, hemail, hpt, hm, htrig, hexec]

theorem pyOrS_self (x : Option String) : pyOrS x x = x := by
  unfold pyOrS
  split <;> rfl

/-- CLAIM C2: with no tool executed before the auto-book checks, full
booking state after phase 1, no slot number in the utterance, a confirming
phrase or a freshly extracted email, a probed connection and a responsive
scheduling backend, `process_message` executes schedule_appointment
exactly once — the whole backend trace is that single call, built from the
accumulated state — and returns a tool result named schedule_appointment. -/
theorem c2_auto_book (a : Agent) (msg raw : String) (p : Parse) (loc : Option Near)
    (nlu : Option Nlu) (b : Backend) (pt : DateRange)
    (hflag : a.api_connection_tested = true)
    (hnt : noToolBeforeAutoBook msg loc nlu (.reply raw p) (phase1 a msg nlu).1.context = true)
    (hslot : parse_slot_selection msg = none)
    (hdoc : strTruthy (phase1 a msg nlu).1.context.selected_doctor_id = true)
    (hname : strTruthy (phase1 a msg nlu).1.context.user_name = true)
    (hemail : strTruthy (phase1 a msg nlu).1.context.user_email = true)
    (hpt : (phase1 a msg nlu).1.context.preferred_time = some pt)
    (hpts : pt.start ≠ "")
    (htrig : hasConfirmPhrase msg = true ∨ strTruthy (extract_user_info msg).email = true)
    (hb : ∀ req, ∃ pl, b.schedule_appointment req = Except.ok pl) :
    ∃ pl,
      (process_message a msg loc nlu (.reply raw p) b).1.tool_result =
        some (.ok "schedule_appointment" pl (schedSummary pl)) ∧
      (process_message a msg loc nlu (.reply raw p) b).2.2 =
        [.sched (schedReqFor (autoBookArgs (phase1 a msg nlu).1.context pt.start) nlu
          (some (extract_user_info msg)) (phase1 a msg nlu).1.context)] ∧
      ((process_message a msg loc nlu (.reply raw p) b).2.2.filter BCall.isSched).length = 1 ∧
      (schedReqFor (autoBookArgs (phase1 a msg nlu).1.context pt.start) nlu
          (some (extract_user_info msg)) (phase1 a msg nlu).1.context).doctorId =
        ((phase1 a msg nlu).1.context.selected_doctor_id).getD "" ∧
      (schedReqFor (autoBookArgs (phase1 a msg nlu).1.context pt.start) nlu
          (some (extract_user_info msg)) (phase1 a msg nlu).1.context).startUtc = pt.start ∧
      (schedReqFor (autoBookArgs (phase1 a msg nlu).1.context pt.start) nlu
          (some (extract_user_info msg)) (phase1 a msg nlu).1.context).user =
        ⟨(phase1 a msg nlu).1.context.user_name, (phase1 a msg nlu).1.context.user_email⟩ := by
  have hui : (phase1 a msg nlu).2 = extract_user_info msg := phase1_ui a msg nlu
  have hflag1 : (phase1 a msg nlu).1.api_connection_tested = true := by
    rw [phase1_flag]; exact hflag
  have hpts' : strTruthy (some pt.start) = true := (strTruthy_some_iff pt.start).mpr hpts
  have hrs : resolveStart (some pt.start) nlu (phase1 a msg nlu).1.context = some pt.start := by
    simp [resolveStart, hpts']
  have hd' : strTruthy (pyOrS (autoBookArgs (phase1 a msg nlu).1.context pt.start).doctorId
      (phase1 a msg nlu).1.context.selected_doctor_id) = true := by
    show strTruthy (pyOrS (phase1 a msg nlu).1.context.selected_doctor_id
      (phase1 a msg nlu).1.context.selected_doctor_id) = true
    rw [strTruthy_pyOrS, hdoc]
    rfl
  have hs' : strTruthy (resolveStart (autoBookArgs (phase1 a msg nlu).1.context pt.start).startUtc
      nlu (phase1 a msg nlu).1.context) = true := by
    show strTruthy (resolveStart (some pt.start) nlu (phase1 a msg nlu).1.context) = true
    rw [hrs]; exact hpts'
  have hn' : strTruthy (resolveName
      (((autoBookArgs (phase1 a msg nlu).1.context pt.start).user.getD ⟨none, none⟩).name)
      (some (extract_user_info msg)) (phase1 a msg nlu).1.context) = true := by
    show strTruthy (resolveName ((phase1 a msg nlu).1.context.user_name)
      (some (extract_user_info msg)) (phase1 a msg nlu).1.context) = true
    simp [resolveName, hname]
  have he' : strTruthy (resolveEmail
      (((autoBookArgs (phase1 a msg nlu).1.context pt.start).user.getD ⟨none, none⟩).email)
      (some (extract_user_info msg)) (phase1 a msg nlu).1.context) = true := by
    show strTruthy (resolveEmail ((phase1 a msg nlu).1.context.user_email)
      (some (extract_user_info msg)) (phase1 a msg nlu).1.context) = true
    simp [resolveEmail, hemail]
  obtain ⟨pl, hpl⟩ := hb (schedReqFor (autoBookArgs (phase1 a msg nlu).1.context pt.start) nlu
    (some (extract_user_info msg)) (phase1 a msg nlu).1.context)
  have hexec : execute_tool
      ⟨some "schedule_appointment", autoBookArgs (phase1 a msg nlu).1.context pt.start⟩
      loc nlu (some (extract_user_info msg)) (phase1 a msg nlu).1 b =
      ⟨.ok (.ok "schedule_appointment" pl (schedSummary pl)), (phase1 a msg nlu).1,
       [.sched (schedReqFor (autoBookArgs (phase1 a msg nlu).1.context pt.start) nlu
         (some (extract_user_info msg)) (phase1 a msg nlu).1.context)]⟩ := by
    rw [exec_tested _ _ _ _ _ _ hflag1, dispatch_sched,
      execSchedule_ok _ _ _ _ _ pl hd' hs' hn' he' hpl]
  have hA := afterLLM_noTool raw p msg loc nlu (extract_user_info msg) (phase1 a msg nlu).1 b hnt
  have h8 := step8_noSlot msg loc nlu (extract_user_info msg) b
    ⟨raw, none, (phase1 a msg nlu).1, []⟩ hslot
  have htrig' : (hasConfirmPhrase msg || strTruthy (extract_user_info msg).email) = true := by
    rcases htrig with h | h <;> simp [h]
  have h9 := step9_fires msg loc nlu (extract_user_info msg) b
    ⟨raw, none, (phase1 a msg nlu).1, []⟩ pt "schedule_appointment" pl (schedSummary pl)
    (phase1 a msg nlu).1
    [.sched (schedReqFor (autoBookArgs (phase1 a msg nlu).1.context pt.start) nlu
      (some (extract_user_info msg)) (phase1 a msg nlu).1.context)]
    hdoc hname hemail hpt rfl htrig' hexec
  have hPM : process_message a msg loc nlu (.reply raw p) b =
      (⟨raw ++ "\n\n" ++ schedSummary pl,
        some (.ok "schedule_appointment" pl (schedSummary pl)), none⟩,
       {(phase1 a msg nlu).1 with conversation_history :=
          (phase1 a msg nlu).1.conversation_history ++
            [⟨"assistant", raw ++ "\n\n" ++ schedSummary pl⟩]},
       [.sched (schedReqFor (autoBookArgs (phase1 a msg nlu).1.context pt.start) nlu
         (some (extract_user_info msg)) (phase1 a msg nlu).1.context)]) := by
    unfold process_message
    dsimp only
    rw [hui, hA]
    dsimp only [Except.bind]
    rw [h8]
    dsimp only [Except.bind]
    rw [h9]
    rfl
  refine ⟨pl, ?_, ?_, ?_, ?_, ?_, ?_⟩
  · rw [hPM]
  · rw [hPM]
  · rw [hPM]
    rfl
  · show (pyOrS (phase1 a msg nlu).1.context.selected_doctor_id
      (phase1 a msg nlu).1.context.selected_doctor_id).getD "" = _
    rw [pyOrS_self]
  · show (resolveStart (some pt.start) nlu (phase1 a msg nlu).1.context).getD "" = pt.start
    rw [hrs]
    rfl
  · show (⟨resolveName ((phase1 a msg nlu).1.context.user_name)
        (some (extract_user_info msg)) (phase1 a msg nlu).1.context,
      resolveEmail ((phase1 a msg nlu).1.context.user_email)
        (some (extract_user_info msg)) (phase1 a msg nlu).1.context⟩ : UserObj) = _
    have e1 : resolveName ((phase1 a msg nlu).1.context.user_name)
        (some (extract_user_info msg)) (phase1 a msg nlu).1.context =
        (phase1 a msg nlu).1.context.user_name := by
      simp [resolveName, hname]
    have e2 : resolveEmail ((phase1 a msg nlu).1.context.user_email)
        (some (extract_user_info msg)) (phase1 a msg nlu).1.context =
        (phase1 a msg nlu).1.context.user_email := by
      simp [resolveEmail, hemail]
    rw [e1, e2]

/-- Witness for C2: full booking state, utterance "yes go ahead", no tool
parsed — exactly one schedule_appointment backend call, and the returned
tool result is named schedule_appointment. -/
theorem c2_witness :
    ∃ pl,
      (process_message aFull "yes go ahead" none none
        (.reply "Okay!" .noJson) bTest).1.tool_result =
        some (.ok "schedule_appointment" pl (schedSummary pl)) ∧
      ((process_message aFull "yes go ahead" none none
        (.reply "Okay!" .noJson) bTest).2.2.filter BCall.isSched).length = 1 := by
  obtain ⟨pl, h1, _, h3, _, _, _⟩ := c2_auto_book aFull "yes go ahead" "Okay!"
    Parse.noJson none none bTest ⟨"2024-01-15T09:00:00Z", "2024-01-15T09:30:00Z"⟩
    rfl (by decide) (by decide) (by decide) (by decide) (by decide) (by decide)
    (by decide) (Or.inl (by decide)) (fun req => ⟨.sched (some "apt1") none, rfl⟩)
  exact ⟨pl, h1, h3⟩

theorem execSearch_noSched (args : Args) (loc : Option Near) (nlu : Option Nlu)
    (a : Agent) (b : Backend) :
    List.filter BCall.isSched (execSearch args loc nlu a b).calls = [] := by
  simp only [execSearch]
  repeat' split
  all_goals rfl

theorem execTool_search_noSched (args : Args) (loc : Option Near) (nlu : Option Nlu)
    (ui : Option UserInfo) (a : Agent) (b : Backend) :
    List.filter BCall.isSched
      (execute_tool ⟨some "search_doctors", args⟩ loc nlu ui a b).calls = [] := by
  unfold execute_tool
  by_cases hf : a.api_connection_tested = true
  · rw [if_pos hf, dispatch_search]
    exact execSearch_noSched ..
  · rw [if_neg hf]
    split
    · rfl
    · split
      · show List.filter _ (.probe :: (execDispatch _ _ _ _ _ _).calls) = []
        rw [dispatch_search, List.filter_cons]
        simp [BCall.isSched, execSearch_noSched]
      · rfl

theorem afterLLM_noSched (raw : String) (p : Parse) (msg : String) (loc : Option Near)
    (nlu : Option Nlu) (ui : UserInfo) (a1 : Agent) (b : Backend)
    (hp : ∀ resp tc, p ≠ Parse.ok resp (.call tc)) :
    List.filter BCall.isSched (afterCalls (afterLLM raw p msg loc nlu ui a1 b)) = [] := by
  cases p with
  | noJson => rfl
  | fail =>
    unfold afterLLM
    dsimp only
    repeat' split
    all_goals dsimp only [afterCalls]
    all_goals first
      | rfl
      | apply execTool_search_noSched
  | ok resp tf =>
    cases tf with
    | absent => rfl
    | null => rfl
    | call tc => exact absurd rfl (hp resp tc)

/-- CLAIM C3, counterexample: with full booking state and an utterance
containing no slot number, no confirming phrase and no email, the claim as
stated still fails when the language model's own output requests a
schedule_appointment tool call — it is then invoked (once). -/
theorem c3_counterexample :
    parse_slot_selection "hmm" = none ∧
    hasConfirmPhrase "hmm" = false ∧
    (extract_user_info "hmm").email = none ∧
    strTruthy (phase1 aFull "hmm" none).1.context.selected_doctor_id = true ∧
    strTruthy (phase1 aFull "hmm" none).1.context.user_name = true ∧
    strTruthy (phase1 aFull "hmm" none).1.context.user_email = true ∧
    (phase1 aFull "hmm" none).1.context.preferred_time.isSome = true ∧
    (List.filter BCall.isSched
      (process_message aFull "hmm" none none
        (.reply "raw" (.ok (some "resp") (.call ⟨some "schedule_appointment",
          {noArgs with
              doctorId := some "d1"
              startUtc := some "2024-01-15T09:00:00Z"
              user := some ⟨some "Ahmed", some "a@b.com"⟩}⟩))) bTest).2.2).length = 1 := by
  refine ⟨rfl, rfl, rfl, rfl, rfl, rfl, rfl, rfl⟩

/-- CLAIM C3 (amended): with full booking state but an utterance carrying
no slot number, no confirming phrase and no new email, and a language
model reply that parses to no tool call, `process_message` never invokes
schedule_appointment: the backend trace contains no scheduling call. -/
theorem c3_no_double_booking (a : Agent) (msg raw : String) (p : Parse)
    (loc : Option Near) (nlu : Option Nlu) (b : Backend)
    (hp : ∀ resp tc, p ≠ Parse.ok resp (.call tc))
    (hslot : parse_slot_selection msg = none)
    (hcp : hasConfirmPhrase msg = false)
    (hem : (extract_user_info msg).email = none)
    (hdoc : strTruthy (phase1 a msg nlu).1.context.selected_doctor_id = true)
    (hname : strTruthy (phase1 a msg nlu).1.context.user_name = true)
    (hemail : strTruthy (phase1 a msg nlu).1.context.user_email = true)
    (hpt : (phase1 a msg nlu).1.context.preferred_time.isSome = true) :
    List.filter BCall.isSched (process_message a msg loc nlu (.reply raw p) b).2.2 = [] := by
  have hem' : strTruthy (extract_user_info msg).email = false := by rw [hem]; rfl
  have haux := afterLLM_noSched raw p msg loc nlu (extract_user_info msg)
    (phase1 a msg nlu).1 b hp
  unfold process_message
  dsimp only
  rw [show (phase1 a msg nlu).2 = extract_user_info msg from rfl]
  cases hAL : afterLLM raw p msg loc nlu (extract_user_info msg) (phase1 a msg nlu).1 b with
  | error val =>
    rw [hAL] at haux
    obtain ⟨e, aE, cs⟩ := val
    dsimp only [Except.bind]
    exact haux
  | ok m =>
    rw [hAL] at haux
    dsimp only [Except.bind]
    rw [step8_noSlot msg loc nlu (extract_user_info msg) b m hslot]
    dsimp only [Except.bind]
    rw [step9_noTrigger msg loc nlu (extract_user_info msg) b m hcp hem']
    exact haux

/-- Witness for C3 at a concrete input: full state, utterance "hmm",
reply with no JSON — no scheduling call in the trace. -/
theorem c3_witness :
    List.filter BCall.isSched
      (process_message aFull "hmm" none none (.reply "raw" .noJson) bTest).2.2 = [] :=
  c3_no_double_booking aFull "hmm" "raw" Parse.noJson none none bTest
    (fun _ _ h => Parse.noConfusion h) (by decide) (by decide) (by decide)
    (by decide) (by decide) (by decide) (by decide)

theorem afterLLM_fires (raw msg : String) (loc : Option Near) (nlu : Option Nlu)
    (ui : UserInfo) (a1 : Agent) (b : Backend) (tr : ToolResult) (st' : Agent)
    (calls' : List BCall)
    (hA : ((strTruthy (implicitSpecialty nlu a1.context) ||
        strTruthy a1.context.specialty) && loc.isSome) = true)
    (hph : hasGavePhrase msg = true)
    (hexec : execute_tool ⟨some "search_doctors",
        {noArgs with specialty := (pyOrS (implicitSpecialty nlu a1.context) a1.context.specialty)}⟩
        loc nlu (some ui) a1 b = ⟨.ok tr, st', calls'⟩) :
    afterLLM raw .fail msg loc nlu ui a1 b =
      .ok ⟨(match tr with | .ok _ _ s3 => raw ++ "\n\n" ++ s3 | .err _ => raw),
        some tr, st', calls'⟩ := by
  unfold afterLLM
  simp only [hA, if_true, hph, hexec]
  cases tr <;> rfl

theorem execSearch_calls (args : Args) (l : Near) (nlu : Option Nlu)
    (a : Agent) (b : Backend)
    (hsp : strTruthy args.specialty = true) (hnear : args.near = none) :
    ∃ tr st', execSearch args (some l) nlu a b =
      ⟨.ok tr, st',
       [.search (args.specialty.getD "") (pyOrI l.lat l.latitude)
         (pyOrI l.lng l.longitude) (args.radiusKm.getD 10)]⟩ := by
  rcases hb : b.search_doctors (args.specialty.getD "") (pyOrI l.lat l.latitude)
      (pyOrI l.lng l.longitude) (args.radiusKm.getD 10) with e | ds
  · refine ⟨.err ("Tool execution failed: " ++ e), a, ?_⟩
    simp [execSearch, hsp, hnear, hb]
  · refine ⟨.ok "search_doctors" (.search ds) (searchSummary (args.specialty.getD "") ds),
      {a with context := {a.context with last_search_results := some ds}}, ?_⟩
    simp [execSearch, hsp, hnear, hb]

/-- CLAIM C1, counterexample: a session specialty and a caller location
are both available and the model reply fails to decode, but the utterance
contains no "already given" phrase — no search is run and no tool result
is returned, refuting the claim's "or simply whenever specialty and
location are both available" disjunct (that arm of the source's if/elif is
unreachable). -/
theorem c1_counterexample :
    strTruthy ((phase1 ⟨true, {emptyContext with specialty := some "cardiology"}, []⟩
      "hello" none).1.context.specialty) = true ∧
    hasGavePhrase "hello" = false ∧
    (process_message ⟨true, {emptyContext with specialty := some "cardiology"}, []⟩
      "hello" (some ⟨some 3, some 4, none, none⟩) none (.reply "raw" .fail) bTest).2.2 = [] ∧
    (process_message ⟨true, {emptyContext with specialty := some "cardiology"}, []⟩
      "hello" (some ⟨some 3, some 4, none, none⟩) none
      (.reply "raw" .fail) bTest).1.tool_result = none := by
  refine ⟨rfl, rfl, rfl, rfl⟩

/-- CLAIM C1 (amended): when the model reply fails to decode, a specialty
is available (from the NLU result or session state), a location is
supplied, and the utterance contains one of the "already given" phrases —
and only then — search_doctors is run automatically, exactly once, with
the resolved specialty; its summary is appended to the reply on success
while an error leaves the reply unchanged (though the error result is
still returned as the tool result). -/
theorem c1_implicit_search (a : Agent) (msg raw : String) (l : Near)
    (nlu : Option Nlu) (b : Backend)
    (hflag : a.api_connection_tested = true)
    (hph : hasGavePhrase msg = true)
    (hsp : strTruthy (pyOrS (implicitSpecialty nlu (phase1 a msg nlu).1.context)
      (phase1 a msg nlu).1.context.specialty) = true) :
    ∃ tr,
      (process_message a msg (some l) nlu (.reply raw .fail) b).1.tool_result = some tr ∧
      (process_message a msg (some l) nlu (.reply raw .fail) b).2.2 =
        [.search ((pyOrS (implicitSpecialty nlu (phase1 a msg nlu).1.context)
            (phase1 a msg nlu).1.context.specialty).getD "")
          (pyOrI l.lat l.latitude) (pyOrI l.lng l.longitude) 10] ∧
      (process_message a msg (some l) nlu (.reply raw .fail) b).1.response =
        (match tr with | .ok _ _ s3 => raw ++ "\n\n" ++ s3 | .err _ => raw) := by
  have hflag1 : (phase1 a msg nlu).1.api_connection_tested = true := by
    rw [phase1_flag]; exact hflag
  have hsp2 := hsp
  rw [strTruthy_pyOrS] at hsp2
  have hA : ((strTruthy (implicitSpecialty nlu (phase1 a msg nlu).1.context) ||
      strTruthy (phase1 a msg nlu).1.context.specialty) &&
      (some l : Option Near).isSome) = true := by
    simp [hsp2]
  obtain ⟨tr, st', hex⟩ := execSearch_calls
    {noArgs with specialty := (pyOrS (implicitSpecialty nlu (phase1 a msg nlu).1.context)
      (phase1 a msg nlu).1.context.specialty)}
    l nlu (phase1 a msg nlu).1 b hsp rfl
  have hexec : execute_tool ⟨some "search_doctors",
      {noArgs with specialty := (pyOrS (implicitSpecialty nlu (phase1 a msg nlu).1.context)
        (phase1 a msg nlu).1.context.specialty)}⟩
      (some l) nlu (some (extract_user_info msg)) (phase1 a msg nlu).1 b =
      ⟨.ok tr, st',
       [.search ((pyOrS (implicitSpecialty nlu (phase1 a msg nlu).1.context)
           (phase1 a msg nlu).1.context.specialty).getD "")
         (pyOrI l.lat l.latitude) (pyOrI l.lng l.longitude) 10]⟩ := by
    rw [exec_tested _ _ _ _ _ _ hflag1, dispatch_search]
    exact hex
  clear hex
  cases tr with
  | ok t pl s =>
    have hAL := afterLLM_fires raw msg (some l) nlu (extract_user_info msg)
      (phase1 a msg nlu).1 b (.ok t pl s) st' _ hA hph hexec
    have h8 := step8_skip msg (some l) nlu (extract_user_info msg) b
      ⟨raw ++ "\n\n" ++ s, some (.ok t pl s), st',
       [.search ((pyOrS (implicitSpecialty nlu (phase1 a msg nlu).1.context)
           (phase1 a msg nlu).1.context.specialty).getD "")
         (pyOrI l.lat l.latitude) (pyOrI l.lng l.longitude) 10]⟩ (.ok t pl s) rfl
    have h9 := step9_skip msg (some l) nlu (extract_user_info msg) b
      ⟨raw ++ "\n\n" ++ s, some (.ok t pl s), st',
       [.search ((pyOrS (implicitSpecialty nlu (phase1 a msg nlu).1.context)
           (phase1 a msg nlu).1.context.specialty).getD "")
         (pyOrI l.lat l.latitude) (pyOrI l.lng l.longitude) 10]⟩ (.ok t pl s) rfl
    refine ⟨.ok t pl s, ?_, ?_, ?_⟩ <;>
    · unfold process_message
      dsimp only
      rw [show (phase1 a msg nlu).2 = extract_user_info msg from rfl]
      rw [hAL]
      dsimp only [Except.bind]
      rw [h8]
      dsimp only [Except.bind]
      rw [h9]
  | err e =>
    have hAL := afterLLM_fires raw msg (some l) nlu (extract_user_info msg)
      (phase1 a msg nlu).1 b (.err e) st' _ hA hph hexec
    have h8 := step8_skip msg (some l) nlu (extract_user_info msg) b
      ⟨raw, some (.err e), st',
       [.search ((pyOrS (implicitSpecialty nlu (phase1 a msg nlu).1.context)
           (phase1 a msg nlu).1.context.specialty).getD "")
         (pyOrI l.lat l.latitude) (pyOrI l.lng l.longitude) 10]⟩ (.err e) rfl
    have h9 := step9_skip msg (some l) nlu (extract_user_info msg) b
      ⟨raw, some (.err e), st',
       [.search ((pyOrS (implicitSpecialty nlu (phase1 a msg nlu).1.context)
           (phase1 a msg nlu).1.context.specialty).getD "")
         (pyOrI l.lat l.latitude) (pyOrI l.lng l.longitude) 10]⟩ (.err e) rfl
    refine ⟨.err e, ?_, ?_, ?_⟩ <;>
    · unfold process_message
      dsimp only
      rw [show (phase1 a msg nlu).2 = extract_user_info msg from rfl]
      rw [hAL]
      dsimp only [Except.bind]
      rw [h8]
      dsimp only [Except.bind]
      rw [h9]

/-- Witness for C1: session specialty "dentist", a location, and the
phrase "i told" — exactly one search call with the resolved specialty. -/
theorem c1_witness :
    ∃ tr,
      (process_message ⟨true, {emptyContext with specialty := some "dentist"}, []⟩
        "i told you already" (some ⟨some 3, some 4, none, none⟩) none
        (.reply "raw" .fail) bTest).1.tool_result = some tr ∧
      (process_message ⟨true, {emptyContext with specialty := some "dentist"}, []⟩
        "i told you already" (some ⟨some 3, some 4, none, none⟩) none
        (.reply "raw" .fail) bTest).2.2 = [.search "dentist" (some 3) (some 4) 10] := by
  obtain ⟨tr, h1, h2, _⟩ := c1_implicit_search
    ⟨true, {emptyContext with specialty := some "dentist"}, []⟩
    "i told you already" "raw" ⟨some 3, some 4, none, none⟩ none bTest
    rfl (by decide) (by decide)
  refine ⟨tr, h1, ?_⟩
  rw [h2]
  rfl

theorem wordTake_shape (cs w r : List Char) (h : wordTake cs = some (w, r)) :
    IsNameWord w := by
  cases cs with
  | nil => exact absurd h (by simp [wordTake])
  | cons c rest =>
    simp only [wordTake] at h
    split at h
    · split at h
      · exact absurd h (by simp)
      · simp only [Option.some.injEq, Prod.mk.injEq] at h
        obtain ⟨hw, hr⟩ := h
        subst hw
        constructor
        · have hne : (rest.takeWhile isAlphaCh) ≠ [] := by
            intro he
            simp [he] at *
          have := List.length_pos.mpr hne
          simp only [List.length_cons]
          omega
        · intro x hx
          rcases List.mem_cons.mp hx with rfl | hx2
          · assumption
          · exact List.mem_takeWhile_imp hx2
    · exact absurd h (by simp)

theorem wsTake_shape (cs s r : List Char) (h : wsTake cs = some (s, r)) :
    IsWsRun s := by
  cases cs with
  | nil => exact absurd h (by simp [wsTake])
  | cons c rest =>
    simp only [wsTake] at h
    split at h
    · simp only [Option.some.injEq, Prod.mk.injEq] at h
      obtain ⟨hs, hr⟩ := h
      subst hs
      constructor
      · simp
      · intro x hx
        rcases List.mem_cons.mp hx with rfl | hx2
        · assumption
        · exact List.mem_takeWhile_imp hx2
    · exact absurd h (by simp)

theorem groupRest_shape (fuel : Nat) : ∀ cs : List Char, NameTail (groupRest fuel cs) := by
  induction fuel with
  | zero => intro cs; exact NameTail.nil
  | succ n ih =>
    intro cs
    unfold groupRest
    cases hws : wsTake cs with
    | none => exact NameTail.nil
    | some pr =>
      obtain ⟨s, r1⟩ := pr
      dsimp only
      cases hw : wordTake r1 with
      | none => exact NameTail.nil
      | some pw =>
        obtain ⟨w, r2⟩ := pw
        dsimp only
        exact NameTail.cons (wsTake_shape cs s r1 hws) (wordTake_shape r1 w r2 hw) (ih r2)

theorem patGroup_shape (cs n : List Char) (h : patGroup cs = some n) : NameShape n := by
  unfold patGroup at h
  cases hw : wordTake cs with
  | none => rw [hw] at h; exact absurd h (by simp)
  | some pw =>
    obtain ⟨w, r⟩ := pw
    rw [hw] at h
    simp only [Option.some.injEq] at h
    exact ⟨w, groupRest r.length r, wordTake_shape cs w r hw, groupRest_shape r.length r, h.symm⟩

theorem wsGroup_shape (cs n : List Char) (h : wsGroup cs = some n) : NameShape n := by
  unfold wsGroup at h
  cases hws : wsTake cs with
  | none => rw [hws] at h; exact absurd h (by simp)
  | some pr =>
    obtain ⟨s, r⟩ := pr
    rw [hws] at h
    exact patGroup_shape r n h

theorem mTail_shape (cs n : List Char) (h : mTail cs = some n) : NameShape n := by
  cases cs with
  | nil => exact absurd h (by simp [mTail])
  | cons c rest =>
    simp only [mTail] at h
    split at h
    · exact wsGroup_shape rest n h
    · exact absurd h (by simp)

theorem patAt_shape (k : Nat) (cs n : List Char) (h : patAt k cs = some n) :
    NameShape n := by
  match k with
  | 0 =>
    simp only [patAt] at h
    obtain ⟨r, _, hg⟩ := Option.bind_eq_some.mp h
    exact patGroup_shape r n hg
  | 1 =>
    cases cs with
    | nil => exact absurd h (by simp [patAt])
    | cons c rest =>
      simp only [patAt] at h
      split at h
      · cases rest with
        | nil => exact absurd h (by simp)
        | cons c2 r2 =>
          dsimp only at h
          split at h
          · exact mTail_shape _ n h
          · exact mTail_shape _ n h
      · exact absurd h (by simp)
  | 2 =>
    simp only [patAt] at h
    obtain ⟨r, _, hg⟩ := Option.bind_eq_some.mp h
    exact wsGroup_shape r n hg
  | 3 =>
    simp only [patAt] at h
    obtain ⟨r, _, hg⟩ := Option.bind_eq_some.mp h
    exact wsGroup_shape r n hg
  | 4 =>
    simp only [patAt] at h
    obtain ⟨r, _, hg⟩ := Option.bind_eq_some.mp h
    exact wsGroup_shape r n hg
  | k + 5 => exact absurd h (by simp [patAt])

theorem searchAt_shape (pat : List Char → Option (List Char))
    (hpat : ∀ cs n, pat cs = some n → NameShape n) :
    ∀ cs n, searchAt pat cs = some n → NameShape n := by
  intro cs
  induction cs with
  | nil => exact fun n h => hpat [] n h
  | cons c cs ih =>
    intro n h
    unfold searchAt at h
    cases hp : pat (c :: cs) with
    | some m =>
      rw [hp] at h
      simp only [Option.some.injEq] at h
      exact h ▸ hpat _ _ hp
    | none =>
      rw [hp] at h
      exact ih n h

theorem extract_name_eq (msg : String) :
    (extract_user_info msg).name =
      (extractNameRaw msg.toList).map (fun l => String.mk (stripChars l)) := by
  unfold extract_user_info
  dsimp only
  split <;> rfl

theorem findSome5 (f : Nat → Option (List Char)) :
    (∀ b, (List.range 5).findSome? f = some b →
      ∃ k, k < 5 ∧ f k = some b ∧ ∀ j, j < k → f j = none) ∧
    ((List.range 5).findSome? f = none → ∀ k, k < 5 → f k = none) := by
  have hr : List.range 5 = [0, 1, 2, 3, 4] := rfl
  rw [hr]
  simp only [List.findSome?]
  cases h0 : f 0 with
  | some v =>
    refine ⟨fun b hb => ⟨0, by omega, ?_, fun j hj => absurd hj (by omega)⟩, fun hn => ?_⟩
    · dsimp only at hb
      exact h0.trans hb
    · dsimp only at hn
      cases hn
  | none =>
    cases h1 : f 1 with
    | some v =>
      refine ⟨fun b hb => ⟨1, by omega, ?_, fun j hj => ?_⟩, fun hn => ?_⟩
      · dsimp only at hb
        exact h1.trans hb
      · interval_cases j
        exact h0
      · dsimp only at hn
        cases hn
    | none =>
      cases h2 : f 2 with
      | some v =>
        refine ⟨fun b hb => ⟨2, by omega, ?_, fun j hj => ?_⟩, fun hn => ?_⟩
        · dsimp only at hb
          exact h2.trans hb
        · interval_cases j
          · exact h0
          · exact h1
        · dsimp only at hn
          cases hn
      | none =>
        cases h3 : f 3 with
        | some v =>
          refine ⟨fun b hb => ⟨3, by omega, ?_, fun j hj => ?_⟩, fun hn => ?_⟩
          · dsimp only at hb
            exact h3.trans hb
          · interval_cases j
            · exact h0
            · exact h1
            · exact h2
          · dsimp only at hn
            cases hn
        | none =>
          cases h4 : f 4 with
          | some v =>
            refine ⟨fun b hb => ⟨4, by omega, ?_, fun j hj => ?_⟩, fun hn => ?_⟩
            · dsimp only at hb
              exact h4.trans hb
            · interval_cases j
              · exact h0
              · exact h1
              · exact h2
              · exact h3
            · dsimp only at hn
              cases hn
          | none =>
            refine ⟨fun b hb => ?_, fun _ k hk => ?_⟩
            · dsimp only at hb
              cases hb
            · interval_cases k
              · exact h0
              · exact h1
              · exact h2
              · exact h3
              · exact h4

/-- CLAIM C9 (amended): the entity extractor returns a name exactly when
one of the five patterns matches somewhere in the message, tried in
priority order with the first match winning (earlier patterns found no
match anywhere); the returned value is the stripped captured group, and —
because every pattern carries `re.IGNORECASE` — the group is one or more
words each consisting of a letter followed by one or more letters of any
case, separated by whitespace, not necessarily capitalized. -/
theorem c9_name_shape (msg : String) :
    (∀ n, (extract_user_info msg).name = some n →
      ∃ k raw, k < 5 ∧ searchAt (patAt k) msg.toList = some raw ∧
        (∀ j, j < k → searchAt (patAt j) msg.toList = none) ∧
        n = String.mk (stripChars raw) ∧ NameShape raw) ∧
    ((extract_user_info msg).name = none →
      ∀ k, k < 5 → searchAt (patAt k) msg.toList = none) := by
  have heq := extract_name_eq msg
  have hfs := findSome5 (fun k => searchAt (patAt k) msg.toList)
  constructor
  · intro n hn
    rw [heq] at hn
    cases hraw : extractNameRaw msg.toList with
    | none => rw [hraw] at hn; cases hn
    | some raw =>
      rw [hraw] at hn
      simp only [Option.map_some', Option.some.injEq] at hn
      obtain ⟨k, hk5, hfk, hprev⟩ := hfs.1 raw hraw
      exact ⟨k, raw, hk5, hfk, hprev, hn.symm,
        searchAt_shape (patAt k) (fun cs m hm => patAt_shape k cs m hm) msg.toList raw hfk⟩
  · intro hn
    rw [heq] at hn
    cases hraw : extractNameRaw msg.toList with
    | none => exact hfs.2 hraw
    | some raw => rw [hraw] at hn; cases hn

/-- CLAIM C9, counterexample: `re.IGNORECASE` applies to the `[A-Z][a-z]+`
classes too, so the all-lowercase "ahmed" is extracted as a name, refuting
the claim that a name is returned only when X is capitalized words. -/
theorem c9_counterexample :
    (extract_user_info "my name is ahmed").name = some "ahmed" ∧
    (∀ c ∈ "ahmed".toList, c.isLower = true) := by
  refine ⟨rfl, by decide⟩

/-- Witness for C9: "my name is Bob" extracts "Bob" through the first
pattern, with the captured group of the expected shape. -/
theorem c9_witness :
    ∃ k raw, k < 5 ∧ searchAt (patAt k) "my name is Bob".toList = some raw ∧
      (∀ j, j < k → searchAt (patAt j) "my name is Bob".toList = none) ∧
      ("Bob" : String) = String.mk (stripChars raw) ∧ NameShape raw :=
  (c9_name_shape "my name is Bob").1 "Bob" (by decide)
